import Mathlib

/-!
# Verification of the drama-shorts resumable video pipeline

Shallow embedding of the pipeline-control code of the `drama-shorts-web`
repository (`apps/backend/videos/…`): the moderation retry wrapper, the
moderation-error classifier, the drama and game pipeline executors with
their per-node persistence, the resume planner tables, the CHARACTER-kind
fan-out steps, and the admin start guard.  Machine integers do not occur in
this code; artifact blobs are modelled as `List Nat` byte lists.  Python
functions that may raise are embedded with an explicit `PyResult` /
`Except`-style error channel; a Python `dict` key that may be absent is an
`Option` field (Python truthiness collapses falsy values such as `b""` or
`[]` into the absent case exactly where the source tests truthiness, and
this is noted at each site).
-/

namespace DramaShorts

/-- Artifact bytes (contents of an image / video / JSON blob). -/
abbrev Bytes := List Nat

/-- Result of running a Python callable: a returned value or a raised
exception carrying its message.  -/
inductive PyResult (α : Type) where
  | ret (a : α)
  | raise (msg : String)
deriving DecidableEq, Repr

/-! ## Moderation classification (`constants.py`, `fal_client.py`) -/

/-- `MAX_MODERATION_RETRIES` from `videos/constants.py` line 17. -/
def MAX_MODERATION_RETRIES : Nat := 5

/-- `MODERATION_KEYWORDS` from `videos/constants.py` lines 31-39. -/
def MODERATION_KEYWORDS : List String :=
  ["moderation", "blocked", "safety", "sensitive", "content filter", "nsfw", "policy"]

/-- ASCII lower-casing of a character (`str.lower` restricted to ASCII,
which covers every keyword in `MODERATION_KEYWORDS`). -/
def lowerChar (c : Char) : Char :=
  if 65 ≤ c.toNat && c.toNat ≤ 90 then Char.ofNat (c.toNat + 32) else c

/-- Lower-case a string character-wise (model of `str.lower`). -/
def strLower (s : String) : String := String.mk (s.data.map lowerChar)

/-- `needle` occurs as a contiguous substring of `hay` (model of Python's
`keyword in error_msg`). -/
def charsContain (needle : List Char) : List Char → Bool
  | [] => needle.isEmpty
  | c :: t => needle.isPrefixOf (c :: t) || charsContain needle t

/-- `any(keyword in error_msg for keyword in MODERATION_KEYWORDS)` applied
to the lower-cased exception text (`fal_client._check_moderation_error`
lines 30-31). -/
def isModerationMsg (raw : String) : Bool :=
  MODERATION_KEYWORDS.any (fun kw => charsContain kw.data (strLower raw).data)

/-- Error taxonomy after classification: `ModerationError` versus any other
exception re-raised unchanged. -/
inductive FalError where
  | moderation (msg : String)
  | other (msg : String)
deriving DecidableEq, Repr

/-- `_check_moderation_error` (`fal_client.py` lines 20-33): re-raise the
caught exception as `ModerationError` when its text contains a moderation
keyword, otherwise re-raise it unchanged. -/
def checkModerationError (raw : String) : FalError :=
  if isModerationMsg raw then .moderation raw else .other raw

/-- A fal.ai video-generation call (`generate_video_from_image` /
`generate_video_interpolation`): the provider interaction is an oracle
indexed by the call number; on any exception the function runs
`_check_moderation_error`, so the caller observes a classified error. -/
def falCall (provider : Nat → String → Except String Bytes) (n : Nat) (prompt : String) :
    Except FalError Bytes :=
  match provider n prompt with
  | .ok b => .ok b
  | .error raw => .error (checkModerationError raw)

/-! ## Moderation retry wrapper
(`generators/nodes/video_generator.py`, `_generate_with_moderation_retry`,
lines 55-115).  The Python loop is `for attempt in range(max_retries + 1)`;
the embedding recurses on the number of loop iterations still available
(`fuel`), which starts at `max_retries + 1` and is `max_retries + 1 -
attempt` at every call, so the fuel-exhausted base case corresponds to the
unreachable `return None` after the loop.  The generation callable is an
oracle indexed by the call number so that successive calls may behave
differently.  The wrapper returns `.ret (some bytes)` on success,
`.ret none` (the skip signal) when retries are exhausted AND — as the
source's final generic `except Exception` handler does — when a
non-moderation error is caught; no path of the source re-raises, so
`.raise` never occurs.  The second component counts calls to `generate_fn`. -/

def retryGo (genFn : Nat → String → Except FalError Bytes)
    (quick full : String → String) (origPrompt : String) (maxRetries : Nat) :
    Nat → Nat → String → PyResult (Option Bytes) × Nat
  | 0, _, _ => (.ret none, 0)
  | fuel + 1, attempt, current =>
    match genFn attempt current with
    | .ok b => (.ret (some b), 1)
    | .error (.moderation _) =>
      if attempt < maxRetries then
        -- progressive sanitization strategies (source lines 88-101)
        let next :=
          if attempt == 0 then quick current
          else if attempt == 1 then full origPrompt  -- from the original prompt
          else full current
        let r := retryGo genFn quick full origPrompt maxRetries fuel (attempt + 1) next
        (r.1, r.2 + 1)
      else
        (.ret none, 1)
    | .error (.other _) => (.ret none, 1)

/-- `_generate_with_moderation_retry(generate_fn, scene_name, prompt, …)`.
`quick` embeds `quick_sanitize_names`, `full` embeds
`sanitize_prompt_for_veo` (both opaque prompt rewriters). -/
def generateWithModerationRetry (genFn : Nat → String → Except FalError Bytes)
    (quick full : String → String) (prompt : String) : PyResult (Option Bytes) × Nat :=
  retryGo genFn quick full prompt MAX_MODERATION_RETRIES (MAX_MODERATION_RETRIES + 1) 0 prompt

/-! ### Lemmas about the retry wrapper -/

/-- If every call raises a moderation-classified error, the loop makes one
call per remaining iteration and ends with the skip signal. -/
theorem retryGo_all_moderation (genFn : Nat → String → Except FalError Bytes)
    (quick full : String → String) (origPrompt : String) (maxRetries : Nat)
    (hmod : ∀ n p, ∃ m, genFn n p = .error (.moderation m)) :
    ∀ fuel attempt current, attempt + fuel = maxRetries + 1 →
      retryGo genFn quick full origPrompt maxRetries fuel attempt current = (.ret none, fuel) := by
  intro fuel
  induction fuel with
  | zero => intro attempt current _; rfl
  | succ f ih =>
    intro attempt current hsum
    obtain ⟨m, hm⟩ := hmod attempt current
    by_cases hlt : attempt < maxRetries
    · have hrec := ih (attempt + 1) (if attempt == 0 then quick current
        else if attempt == 1 then full origPrompt else full current) (by omega)
      simp only [retryGo, hm, if_pos hlt, hrec]
    · have hf : f = 0 := by omega
      subst hf
      simp only [retryGo, hm, if_neg hlt]

/-- The loop never makes more calls than it has iterations. -/
theorem retryGo_calls_le (genFn : Nat → String → Except FalError Bytes)
    (quick full : String → String) (origPrompt : String) (maxRetries : Nat) :
    ∀ fuel attempt current,
      (retryGo genFn quick full origPrompt maxRetries fuel attempt current).2 ≤ fuel := by
  intro fuel
  induction fuel with
  | zero => intro attempt current; simp [retryGo]
  | succ f ih =>
    intro attempt current
    simp only [retryGo]
    cases hg : genFn attempt current with
    | ok b => simp
    | error e =>
      cases e with
      | moderation m =>
        by_cases hlt : attempt < maxRetries
        · simp only [if_pos hlt]
          have := ih (attempt + 1) (if attempt == 0 then quick current
            else if attempt == 1 then full origPrompt else full current)
          omega
        · simp [if_neg hlt]
      | other m => simp

/-- One loop iteration that catches a non-moderation exception returns the
skip signal after exactly one call (the source's final generic
`except Exception` handler, lines 111-113). -/
theorem retryGo_other (genFn : Nat → String → Except FalError Bytes)
    (quick full : String → String) (origPrompt : String) (maxRetries fuel attempt : Nat)
    (current m : String) (h : genFn attempt current = .error (.other m)) :
    retryGo genFn quick full origPrompt maxRetries (fuel + 1) attempt current = (.ret none, 1) := by
  simp only [retryGo, h]

/-- The wrapper's result is surfaced by a `return`, never by re-raising. -/
def propagated : PyResult (Option Bytes) → Bool
  | .raise _ => true
  | .ret _ => false

/-! ## Data model (`models.py`) -/

/-- `VideoGenerationJob.Status` (`models.py` lines 167-184): the common,
drama-only and game-only stages. -/
inductive Status where
  | pending | planning | completed | failed
  | preparing | generatingS1 | preparingCta | generatingS2 | concatenating
  | generatingFrames | generatingVideos | merging
deriving DecidableEq, Repr

/-- `VideoSegment.Status` (`models.py` lines 355-359). -/
inductive SegStatus where
  | pending | generating | completed | skipped
deriving DecidableEq, Repr

/-- One entry of the in-memory `segments` list (`SegmentData` in
`generators/state.py`; the opaque `raw_data` dict is not modelled). -/
structure SegData where
  title : String
  seconds : Nat
  prompt : String
deriving DecidableEq, Repr

/-- A `VideoSegment` row (`models.py` lines 352-383): prompt data plus the
produced video artifact.  The unused `last_frame`/`error_message` columns
are omitted. -/
structure Segment where
  title : String
  seconds : Nat
  prompt : String
  videoFile : Option Bytes
  status : SegStatus
deriving DecidableEq, Repr

/-- One element of the state's `segment_videos` reducer list
(`SegmentVideo` in `generators/state.py`). -/
structure SegVideo where
  videoBytes : Bytes
  index : Nat
  title : String
deriving DecidableEq, Repr

/-- The durable `VideoGenerationJob` record restricted to the fields the
drama pipeline executor reads or writes.  Django's empty-string sentinel
for `failed_at_status` is modelled as `none`. -/
structure Job where
  status : Status
  failedAtStatus : Option Status
  currentStep : String
  errorMessage : String
  scriptJson : Option Bytes
  productDetail : Option Bytes
  characterDetails : Option Bytes
  firstFrame : Option Bytes
  scene1LastFrame : Option Bytes
  ctaLastFrame : Option Bytes
  finalVideo : Option Bytes
  segments : List Segment
  skippedSegments : List Nat
deriving DecidableEq, Repr

/-- A drama node's returned partial-state dict.  A field is `none` / `[]`
when the key is absent (or Python-falsy, at the sites where the source
tests truthiness).  The `…Tmp` fields are the underscore-prefixed
temporary keys the nodes return (`_first_frame_bytes`,
`_scene1_video_bytes`, …); `_save_node_result` reads the corresponding
non-underscore keys, so in this revision the two families are distinct. -/
structure NodeOutput where
  error : Option String := none
  statusTag : String := ""
  scriptJson : Option Bytes := none
  productDetail : Option Bytes := none
  characterDetails : Option Bytes := none
  firstFrameImage : Option Bytes := none
  segmentsData : Option (List SegData) := none
  scene1VideoBytes : Option Bytes := none
  scene1LastFrameImage : Option Bytes := none
  ctaLastFrameImage : Option Bytes := none
  scene2VideoBytes : Option Bytes := none
  finalVideoBytes : Option Bytes := none
  skippedSegments : Option (List Nat) := none
  currentSegmentIndex : Option Nat := none
  segmentVideos : List SegVideo := []
  firstFrameBytesTmp : Option Bytes := none
  scene1VideoBytesTmp : Option Bytes := none
  scene1LastFrameBytesTmp : Option Bytes := none
  ctaLastFrameBytesTmp : Option Bytes := none
  scene2VideoBytesTmp : Option Bytes := none
  finalVideoBytesTmp : Option Bytes := none
  scene1Title : Option String := none
  scene2Title : Option String := none
deriving DecidableEq, Repr

/-- The in-memory LangGraph state (`VideoGeneratorState`), restricted to
the keys read by the embedded nodes and merge logic.  The `…Url` keys are
read via `state.get(…)` by the scene nodes; no node output in this
revision sets them, so they keep whatever the initial state held (`none`
means absent-or-falsy). -/
structure GState where
  segments : List SegData := []
  firstFrameUrl : Option String := none
  scene1LastFrameUrl : Option String := none
  ctaLastFrameUrl : Option String := none
  skippedSegments : List Nat := []
  segmentVideos : List SegVideo := []
  currentSegmentIndex : Nat := 0
  error : Option String := none
  statusTag : String := "pending"
  scriptJson : Option Bytes := none
  productDetail : Option Bytes := none
  characterDetails : Option Bytes := none
deriving DecidableEq, Repr

/-- Overwrite-if-present semantics of `dict[key] = value` guarded by key
presence. -/
def mergeOpt (new old : Option α) : Option α :=
  match new with
  | some v => some v
  | none => old

/-! ## Drama pipeline executor (`services.py`) -/

/-- `NODE_ORDER` (`status_config.py` lines 15-22, repeated in
`generate_video_with_resume`). -/
def NODE_ORDER : List String :=
  ["plan_script", "prepare_first_frame", "generate_scene1",
   "prepare_cta_frame", "generate_scene2", "concatenate_videos"]

/-- `update_or_create` of one `VideoSegment` row keyed by its index
(`_create_video_segments`): the listed defaults overwrite, the artifact
column `video_file` of an existing row is untouched. -/
def updSegmentRow (s : Segment) (d : SegData) : Segment :=
  { s with title := d.title, seconds := d.seconds, prompt := d.prompt, status := .pending }

/-- A freshly created `VideoSegment` row. -/
def newSegmentRow (d : SegData) : Segment :=
  ⟨d.title, d.seconds, d.prompt, none, .pending⟩

/-- `_create_video_segments(job, segments_data)` (`services.py` lines
215-235): rows with index ≥ `len(segments_data)` are deleted, the rest are
updated-or-created positionally. -/
def createVideoSegments : List Segment → List SegData → List Segment
  | _, [] => []
  | [], d :: ds => newSegmentRow d :: createVideoSegments [] ds
  | s :: olds, d :: ds => updSegmentRow s d :: createVideoSegments olds ds

/-- `job.segments.filter(segment_index=i).first()` followed by saving the
video file and marking the row COMPLETED (no-op when the row is absent). -/
def updateSegmentVideo : List Segment → Nat → Bytes → List Segment
  | [], _, _ => []
  | s :: rest, 0, v => { s with videoFile := some v, status := .completed } :: rest
  | s :: rest, i + 1, v => s :: updateSegmentVideo rest i v

/-- `_save_node_result(job, node_name, node_output)` (`services.py` lines
94-212): per-node persistence of the step's output, which also moves
`job.status` / `job.current_step` to the node's stage. -/
def saveNodeResult (job : Job) (nodeName : String) (out : NodeOutput) : Job :=
  if nodeName = "plan_script" then
    { job with
      status := .planning
      currentStep := "AI 스크립트 기획"
      scriptJson := mergeOpt out.scriptJson job.scriptJson
      productDetail := mergeOpt out.productDetail job.productDetail
      characterDetails := mergeOpt out.characterDetails job.characterDetails }
  else if nodeName = "prepare_first_frame" then
    { job with
      status := .preparing
      currentStep := "첫 프레임 생성"
      firstFrame := mergeOpt out.firstFrameImage job.firstFrame
      segments := createVideoSegments job.segments (out.segmentsData.getD []) }
  else if nodeName = "generate_scene1" then
    let j := { job with status := .generatingS1, currentStep := "Scene 1 생성" }
    let j2 :=
      match out.scene1VideoBytes with
      | some v => { j with segments := updateSegmentVideo j.segments 0 v }
      | none => j
    { j2 with scene1LastFrame := mergeOpt out.scene1LastFrameImage j2.scene1LastFrame }
  else if nodeName = "prepare_cta_frame" then
    { job with
      status := .preparingCta
      currentStep := "CTA 프레임 생성"
      ctaLastFrame := mergeOpt out.ctaLastFrameImage job.ctaLastFrame }
  else if nodeName = "generate_scene2" then
    let j := { job with status := .generatingS2, currentStep := "Scene 2 생성" }
    match out.scene2VideoBytes with
    | some v => { j with segments := updateSegmentVideo j.segments 1 v }
    | none => j
  else if nodeName = "concatenate_videos" then
    { job with
      status := .concatenating
      currentStep := "영상 병합"
      finalVideo := mergeOpt out.finalVideoBytes job.finalVideo
      skippedSegments :=
        if (out.skippedSegments.getD []).isEmpty then job.skippedSegments
        else out.skippedSegments.getD [] }
  else if nodeName = "handle_error" then
    { job with status := .failed, currentStep := "에러 처리" }
  else job

/-- The state merge of `generate_video_with_resume` (lines 399-405): every
returned key overwrites, except `segment_videos` which appends.  (In the
streamed `generate_video_sync` the merge is done by LangGraph's reducers;
the per-key semantics coincide for the keys any embedded node reads.) -/
def mergeOutput (s : GState) (o : NodeOutput) : GState :=
  { s with
    error := mergeOpt o.error s.error
    statusTag := o.statusTag
    segments := (o.segmentsData).getD s.segments
    skippedSegments := (o.skippedSegments).getD s.skippedSegments
    currentSegmentIndex := (o.currentSegmentIndex).getD s.currentSegmentIndex
    segmentVideos := s.segmentVideos ++ o.segmentVideos
    scriptJson := mergeOpt o.scriptJson s.scriptJson
    productDetail := mergeOpt o.productDetail s.productDetail
    characterDetails := mergeOpt o.characterDetails s.characterDetails }

/-- How one sequential pass of the executor ended: the whole node list ran,
a node returned an `error` output (the executor then raises
`RuntimeError`), or a node itself raised an unexpected exception. -/
inductive RunOutcome where
  | completed
  | errorHalt (nodeName : String) (msg : String)
  | raised (nodeName : String) (msg : String)
deriving DecidableEq, Repr

/-- Result of the executor's node loop before the surrounding
`try`/`except` is applied. -/
structure LoopResult where
  job : Job
  state : GState
  executed : List String
  outcome : RunOutcome
deriving DecidableEq, Repr

/-- The node loop shared by `generate_video_sync` (lines 60-74, where the
stream is abandoned on the raise so later nodes never run) and
`generate_video_with_resume` (lines 392-416): invoke the node, merge its
output into the state, persist via `_save_node_result`, then halt on an
`error` output.  `executed` records every node that was invoked. -/
def dramaLoop (nodes : String → GState → PyResult NodeOutput) :
    List String → Job → GState → LoopResult
  | [], job, s => ⟨job, s, [], .completed⟩
  | n :: rest, job, s =>
    match nodes n s with
    | .raise msg => ⟨job, s, [n], .raised n msg⟩
    | .ret out =>
      let s2 := mergeOutput s out
      let j2 := saveNodeResult job n out
      match out.error with
      | some msg =>
        ⟨{ j2 with failedAtStatus := some j2.status, status := .failed, errorMessage := msg },
          s2, [n], .errorHalt n msg⟩
      | none =>
        let r := dramaLoop nodes rest j2 s2
        ⟨r.job, r.state, n :: r.executed, r.outcome⟩

/-- The success epilogue (`services.py` lines 76-79 / 418-421). -/
def markCompleted (j : Job) : Job :=
  { j with status := .completed, currentStep := "완료", failedAtStatus := none }

/-- The `except Exception` epilogue (`services.py` lines 81-91 / 423-432):
record the failure point only when none is recorded yet, then mark FAILED
and persist the exception text before re-raising. -/
def applyExcept (j : Job) (msg : String) : Job :=
  let j2 := if j.failedAtStatus.isNone then { j with failedAtStatus := some j.status } else j
  { j2 with status := .failed, errorMessage := msg }

/-- Observable result of one pipeline-run entry point: the persisted job,
the nodes that were invoked, and how the run ended (`.raised` /
`.errorHalt` re-raise to the caller after the `except` epilogue). -/
structure RunResult where
  job : Job
  executed : List String
  outcome : RunOutcome
deriving DecidableEq, Repr

/-- Run the drama node sequence from position `startIdx`, applying the
success or `except` epilogue. -/
def dramaRunFrom (nodes : String → GState → PyResult NodeOutput)
    (startIdx : Nat) (job : Job) (s : GState) : RunResult :=
  let r := dramaLoop nodes (NODE_ORDER.drop startIdx) job s
  match r.outcome with
  | .completed => ⟨markCompleted r.job, r.executed, .completed⟩
  | .errorHalt n msg => ⟨applyExcept r.job msg, r.executed, .errorHalt n msg⟩
  | .raised n msg => ⟨applyExcept r.job msg, r.executed, .raised n msg⟩

/-- The fresh-run initial state (`generate_video_sync` lines 29-57,
restricted to the modelled keys: every artifact key is initialised empty
and no `…_url` key is present). -/
def initialGState : GState :=
  { segments := []
    firstFrameUrl := none
    scene1LastFrameUrl := none
    ctaLastFrameUrl := none
    skippedSegments := []
    segmentVideos := []
    currentSegmentIndex := 0
    error := none
    statusTag := "pending"
    scriptJson := none
    productDetail := none
    characterDetails := none }

/-- `generate_video_sync(job)` (`services.py` lines 11-91): set the job to
PLANNING, build the initial state, then stream the graph persisting after
every node. -/
def generateVideoSync (nodes : String → GState → PyResult NodeOutput) (job : Job) : RunResult :=
  let j := { job with status := .planning, currentStep := "AI 스크립트 기획" }
  dramaRunFrom nodes 0 j initialGState

/-! ## Resume planner (`services.py` lines 238-342, `status_config.py`) -/

/-- The `resume_map` dict literal inside `get_resume_entry_point`
(`services.py` lines 245-253). -/
def resumeMapServices : List (Status × String) :=
  [(.pending, "plan_script"), (.planning, "plan_script"),
   (.preparing, "prepare_first_frame"), (.generatingS1, "generate_scene1"),
   (.preparingCta, "prepare_cta_frame"), (.generatingS2, "generate_scene2"),
   (.concatenating, "concatenate_videos")]

/-- `dict.get(key)` on a status-keyed table. -/
def lookupStatus (m : List (Status × String)) (st : Status) : Option String :=
  (m.find? (fun p => decide (p.1 = st))).map (·.2)

/-- `get_resume_entry_point(job)` (`services.py` lines 238-254):
`failed_at_status or status` looked up in the table, defaulting to
`plan_script`. -/
def getResumeEntryPoint (job : Job) : String :=
  (lookupStatus resumeMapServices (job.failedAtStatus.getD job.status)).getD "plan_script"

/-- `build_resume_state(job)` (`services.py` lines 257-342), restricted to
the modelled keys: prompts reloaded from the segment rows, segment videos
from the rows that own one, `skipped_segments` from the job; no `…_url`
key is produced. -/
def buildResumeState (job : Job) : GState :=
  { segments := job.segments.map (fun s => SegData.mk s.title s.seconds s.prompt)
    firstFrameUrl := none
    scene1LastFrameUrl := none
    ctaLastFrameUrl := none
    skippedSegments := job.skippedSegments
    segmentVideos :=
      (job.segments.enum.filterMap
        (fun p => p.2.videoFile.map (fun v => SegVideo.mk v p.1 p.2.title)))
    currentSegmentIndex :=
      (job.segments.enum.filterMap
        (fun p => p.2.videoFile.map (fun v => SegVideo.mk v p.1 p.2.title))).length
    error := none
    statusTag := "resuming"
    scriptJson := job.scriptJson
    productDetail := job.productDetail
    characterDetails := job.characterDetails }

/-- `node_order.index(entry_point)` (`services.py` line 389). -/
def nodeIdx (name : String) : Nat := NODE_ORDER.indexOf name

/-- `generate_video_with_resume(job)` (`services.py` lines 345-432):
delegate to a fresh run when the entry point is the first step, otherwise
clear the error message and run the node order from the entry point on the
rebuilt state. -/
def generateVideoWithResume (nodes : String → GState → PyResult NodeOutput)
    (job : Job) : RunResult :=
  let entry := getResumeEntryPoint job
  if entry = "plan_script" then generateVideoSync nodes job
  else
    let s := buildResumeState job
    let j := { job with errorMessage := "" }
    dramaRunFrom nodes (nodeIdx entry) j s

/-! ## Graph routing and the Scene 2 node
(`generators/graph.py`, `generators/nodes/video_generator.py`) -/

/-- `after_scene2(state)` (`graph.py` lines 45-49): an `error` key routes
to `handle_error`, otherwise to `concatenate_videos`. -/
def afterScene2 (s : GState) : String :=
  if s.error.isSome then "handle_error" else "concatenate_videos"

/-- The output `generate_scene2` returns when the retry wrapper yields no
video (`video_generator.py` lines 234-239). -/
def scene2FailOutput : NodeOutput :=
  { skippedSegments := some [2]
    error := some "Scene 2 generation failed after all retries"
    statusTag := "scene2_failed" }

/-- `generate_scene2(state)` (`video_generator.py` lines 185-250): skip
when fewer than two segments exist, error when the two frame URLs are
missing, otherwise call the generator through
`_generate_with_moderation_retry`; `if not video_bytes` treats both `None`
and empty bytes as failure.  An exception escaping the wrapper would
propagate (`.raise`), though no wrapper path produces one. -/
def generateScene2Node (genFn : Nat → String → Except FalError Bytes)
    (quick full : String → String) (s : GState) : PyResult NodeOutput :=
  match s.segments with
  | [] => .ret { currentSegmentIndex := some 2, statusTag := "scene2_skipped" }
  | [_] => .ret { currentSegmentIndex := some 2, statusTag := "scene2_skipped" }
  | _ :: seg :: _ =>
    match s.scene1LastFrameUrl, s.ctaLastFrameUrl with
    | some _, some _ =>
      match (generateWithModerationRetry genFn quick full seg.prompt).1 with
      | .ret (some v) =>
        if v.isEmpty then .ret scene2FailOutput
        else .ret
          { scene2VideoBytesTmp := some v
            scene2Title := some seg.title
            currentSegmentIndex := some 2
            statusTag := "scene2_complete" }
      | .ret none => .ret scene2FailOutput
      | .raise m => .raise m
    | _, _ =>
      .ret { error := some "Missing frame URLs for Scene 2 interpolation"
             statusTag := "scene2_failed" }

/-! ## Resume tables (`status_config.py`) -/

/-- `STATUS_TO_RESUME_NODE` (`status_config.py` lines 118-126). -/
def STATUS_TO_RESUME_NODE : List (Status × String) :=
  [(.pending, "plan_script"), (.planning, "plan_script"),
   (.preparing, "prepare_first_frame"), (.generatingS1, "generate_scene1"),
   (.preparingCta, "prepare_cta_frame"), (.generatingS2, "generate_scene2"),
   (.concatenating, "concatenate_videos")]

/-- `GAME_STATUS_TO_RESUME_NODE` (`status_config.py` lines 226-232). -/
def GAME_STATUS_TO_RESUME_NODE : List (Status × String) :=
  [(.pending, "plan_game_scripts"), (.planning, "plan_game_scripts"),
   (.generatingFrames, "generate_game_frames"),
   (.generatingVideos, "generate_game_videos"), (.merging, "merge_game_videos")]

/-- The non-terminal statuses of the drama pipeline (`models.py` Status
values reachable by a drama job, minus COMPLETED and FAILED). -/
def dramaNonTerminalStatuses : List Status :=
  [.pending, .planning, .preparing, .generatingS1, .preparingCta,
   .generatingS2, .concatenating]

/-- The non-terminal statuses of the game/character pipeline. -/
def gameNonTerminalStatuses : List Status :=
  [.pending, .planning, .generatingFrames, .generatingVideos, .merging]

/-! ## Game pipeline (`game_services.py`, `generators/nodes/game_*.py`) -/

/-- `GAME_NODE_ORDER` (`status_config.py` lines 164-169). -/
def GAME_NODE_ORDER : List String :=
  ["plan_game_scripts", "generate_game_frames", "generate_game_videos", "merge_game_videos"]

/-- `GAME_NODE_TO_STATUS` (`status_config.py` lines 172-177). -/
def GAME_NODE_TO_STATUS : List (String × Status × String) :=
  [("plan_game_scripts", .planning, "AI 스크립트 기획"),
   ("generate_game_frames", .generatingFrames, "프레임 생성"),
   ("generate_game_videos", .generatingVideos, "영상 생성"),
   ("merge_game_videos", .merging, "영상 병합")]

/-- `GAME_MAX_WORKERS` (`constants.py` line 99): bound of the
`ThreadPoolExecutor` used by both fan-out steps.  The pool size only
schedules the calls; the joined result set is deterministic after the
re-sort by scene, which is what the embedding models. -/
def GAME_MAX_WORKERS : Nat := 5

/-- One scene script (`GameScriptData` in `generators/game_state.py`). -/
structure GameScript where
  scene : Nat
  shotType : String
  gameLocation : String
  prompt : String
  action : String
  camera : String
  descriptionKr : String
deriving DecidableEq, Repr

/-- A `GameFrame` row (`models.py` lines 404-448). -/
structure GameFrame where
  sceneNumber : Nat
  shotType : String
  gameLocation : String
  prompt : String
  action : String
  camera : String
  descriptionKr : String
  imageFile : Option Bytes
  imageUrl : String
  videoFile : Option Bytes
  videoUrl : String
deriving DecidableEq, Repr

/-- The durable `VideoGenerationJob` fields the game pipeline reads or
writes. -/
structure GameJob where
  status : Status
  failedAtStatus : Option Status
  currentStep : String
  errorMessage : String
  characterImageUrl : String
  gameName : String
  userPrompt : String
  characterDescription : String
  gameLocationsUsed : List String
  scriptJson : Option (List GameScript)
  gameFrames : List GameFrame
  finalVideo : Option Bytes
deriving DecidableEq, Repr

/-- The in-memory `GameGeneratorState`. -/
structure GameState where
  characterImageUrl : String := ""
  gameName : String := ""
  userPrompt : String := ""
  characterDescription : Option String := none
  gameLocationsUsed : List String := []
  scripts : List GameScript := []
  frameUrls : List String := []
  videoUrls : List String := []
  finalVideoUrl : Option String := none
  error : Option String := none
  statusTag : String := "pending"
deriving DecidableEq, Repr

/-- One per-scene entry of `_frame_results` / `_video_results`: either the
success dict (scene, bytes, provider url) or the error dict (scene, error
text) appended when the future raised. -/
inductive GameItem where
  | ok (scene : Nat) (bytes : Bytes) (url : String)
  | err (scene : Nat) (msg : String)
deriving DecidableEq, Repr

/-- The `scene` key every result entry carries. -/
def GameItem.scene : GameItem → Nat
  | .ok s _ _ => s
  | .err s _ => s

/-- A game node's returned dict; `[]` / `none` is an absent (or
Python-falsy) key. -/
structure GameNodeOutput where
  error : Option String := none
  statusTag : String := ""
  characterDescription : Option String := none
  gameLocationsUsed : List String := []
  scripts : List GameScript := []
  frameResults : List GameItem := []
  videoResults : List GameItem := []
  finalVideoBytesTmp : Option Bytes := none
deriving DecidableEq, Repr

/-- Stable insertion of an item into a scene-sorted list. -/
def insertByScene (x : GameItem) : List GameItem → List GameItem
  | [] => [x]
  | y :: t => if y.scene ≤ x.scene then y :: insertByScene x t else x :: y :: t

/-- `results.sort(key=lambda x: x["scene"])`: deterministic re-sort of the
joined fan-out results by scene number. -/
def sortByScene : List GameItem → List GameItem
  | [] => []
  | x :: t => insertByScene x (sortByScene t)

/-- `generate_game_frames(state)` (`game_assets.py` lines 66-115): submit
one `_generate_single_frame` task per script to the bounded pool, append a
success or error entry per future, sort by scene.  The oracle maps
(character image url, script) to the produced (bytes, provider url) or the
raised exception's text.  No path returns an `error` key. -/
def generateGameFramesNode (oracle : String → GameScript → Except String (Bytes × String))
    (s : GameState) : GameNodeOutput :=
  let results := s.scripts.map (fun sc =>
    match oracle s.characterImageUrl sc with
    | .ok bu => GameItem.ok sc.scene bu.1 bu.2
    | .error m => GameItem.err sc.scene m)
  { frameResults := sortByScene results, statusTag := "generating_videos" }

/-- `generate_game_videos(state)` (`game_video_generator.py` lines
61-116): a script is submitted only when `scene - 1 < len(frame_urls)`
(otherwise it is logged as skipped and produces NO result entry); each
submitted future yields a success or error entry; results are sorted by
scene.  No path returns an `error` key. -/
def generateGameVideosNode (oracle : String → GameScript → Except String (Bytes × String))
    (s : GameState) : GameNodeOutput :=
  let results := s.scripts.filterMap (fun sc =>
    if sc.scene - 1 < s.frameUrls.length then
      some (match oracle (s.frameUrls.getD (sc.scene - 1) "") sc with
        | .ok bu => GameItem.ok sc.scene bu.1 bu.2
        | .error m => GameItem.err sc.scene m)
    else none)
  { videoResults := sortByScene results, statusTag := "merging" }

/-- `_update_game_job_status_for_node` (`game_services.py` lines 146-150):
move the job to the node's stage BEFORE the node runs. -/
def updateGameJobStatusForNode (job : GameJob) (nodeName : String) : GameJob :=
  match GAME_NODE_TO_STATUS.find? (fun p => p.1 == nodeName) with
  | some p => { job with status := p.2.1, currentStep := p.2.2 }
  | none => job

/-- `_create_game_frames` (`game_services.py` lines 240-264): delete all
rows, bulk-create one per script. -/
def createGameFrames (scripts : List GameScript) : List GameFrame :=
  scripts.map (fun sc =>
    ⟨sc.scene, sc.shotType, sc.gameLocation, sc.prompt, sc.action, sc.camera,
     sc.descriptionKr, none, "", none, ""⟩)

/-- Models `FileField.url` of a frame image stored for scene `n`. -/
def frameFileUrl (n : Nat) : String := "jobs/game_frames/frame_" ++ toString n

/-- Models `FileField.url` of a scene video stored for scene `n`. -/
def videoFileUrl (n : Nat) : String := "jobs/game_segments/video_" ++ toString n

/-- Models `job.final_video.url`. -/
def finalFileUrl : String := "jobs/final.mp4"

/-- The frame-save loop of `_save_and_inject_game_urls` (lines 180-201):
for every result entry carrying image bytes whose scene has a `GameFrame`
row, store the bytes and provider url on the row and collect the stored
file's url. -/
def saveFrameResults (frames : List GameFrame) : List GameItem → List GameFrame × List String
  | [] => (frames, [])
  | (.err _ _) :: rest => saveFrameResults frames rest
  | (.ok scene b u) :: rest =>
    match frames.find? (fun f => f.sceneNumber == scene) with
    | none => saveFrameResults frames rest
    | some _ =>
      let frames2 := frames.map (fun f =>
        if f.sceneNumber == scene then { f with imageFile := some b, imageUrl := u } else f)
      let r := saveFrameResults frames2 rest
      (r.1, frameFileUrl scene :: r.2)

/-- The video-save loop of `_save_and_inject_game_urls` (lines 203-224). -/
def saveVideoResults (frames : List GameFrame) : List GameItem → List GameFrame × List String
  | [] => (frames, [])
  | (.err _ _) :: rest => saveVideoResults frames rest
  | (.ok scene b u) :: rest =>
    match frames.find? (fun f => f.sceneNumber == scene) with
    | none => saveVideoResults frames rest
    | some _ =>
      let frames2 := frames.map (fun f =>
        if f.sceneNumber == scene then { f with videoFile := some b, videoUrl := u } else f)
      let r := saveVideoResults frames2 rest
      (r.1, videoFileUrl scene :: r.2)

/-- The state merge of `_save_and_inject_game_urls` (lines 163-165): only
keys NOT starting with an underscore are copied into the state. -/
def mergeGameOutput (s : GameState) (o : GameNodeOutput) : GameState :=
  { s with
    error := mergeOpt o.error s.error
    statusTag := o.statusTag
    characterDescription := mergeOpt o.characterDescription s.characterDescription
    gameLocationsUsed :=
      if o.gameLocationsUsed.isEmpty then s.gameLocationsUsed else o.gameLocationsUsed
    scripts := if o.scripts.isEmpty then s.scripts else o.scripts }

/-- `_save_and_inject_game_urls(job, node_name, result, state)`
(`game_services.py` lines 153-237). -/
def saveAndInjectGameUrls (job : GameJob) (nodeName : String) (o : GameNodeOutput)
    (s : GameState) : GameJob × GameState :=
  let s2 := mergeGameOutput s o
  if nodeName = "plan_game_scripts" then
    let j := { job with
      characterDescription := (o.characterDescription).getD job.characterDescription
      gameLocationsUsed :=
        if o.gameLocationsUsed.isEmpty then job.gameLocationsUsed else o.gameLocationsUsed
      scriptJson := if o.scripts.isEmpty then job.scriptJson else some o.scripts
      gameFrames := createGameFrames o.scripts }
    (j, s2)
  else if nodeName = "generate_game_frames" then
    let r := saveFrameResults job.gameFrames o.frameResults
    ({ job with gameFrames := r.1 }, { s2 with frameUrls := r.2 })
  else if nodeName = "generate_game_videos" then
    let r := saveVideoResults job.gameFrames o.videoResults
    ({ job with gameFrames := r.1 }, { s2 with videoUrls := r.2 })
  else if nodeName = "merge_game_videos" then
    match o.finalVideoBytesTmp with
    | some v => ({ job with finalVideo := some v }, { s2 with finalVideoUrl := some finalFileUrl })
    | none => (job, s2)
  else (job, s2)

/-- Result of the game executor's node loop. -/
structure GameLoopResult where
  job : GameJob
  state : GameState
  executed : List String
  outcome : RunOutcome
deriving DecidableEq, Repr

/-- The node loop of `_generate_game_video` (`game_services.py` lines
62-75): set the node's stage, invoke the node, save-and-inject, halt on an
`error` output via `_handle_game_node_error` (which records
`failed_at_status = job.status` unconditionally) followed by the
`RuntimeError` raise. -/
def gameLoop (nodes : String → GameState → PyResult GameNodeOutput) :
    List String → GameJob → GameState → GameLoopResult
  | [], job, s => ⟨job, s, [], .completed⟩
  | n :: rest, job, s =>
    let j1 := updateGameJobStatusForNode job n
    match nodes n s with
    | .raise msg => ⟨j1, s, [n], .raised n msg⟩
    | .ret out =>
      let p := saveAndInjectGameUrls j1 n out s
      match out.error with
      | some msg =>
        ⟨{ p.1 with failedAtStatus := some p.1.status, status := .failed, errorMessage := msg },
          p.2, [n], .errorHalt n msg⟩
      | none =>
        let r := gameLoop nodes rest p.1 p.2
        ⟨r.job, r.state, n :: r.executed, r.outcome⟩

/-- `_mark_game_completed` (`game_services.py` lines 107-114). -/
def markGameCompleted (j : GameJob) : GameJob :=
  { j with status := .completed, currentStep := "완료", failedAtStatus := none }

/-- `_handle_game_exception` (`game_services.py` lines 94-104): record the
failure point only when none is recorded yet, mark FAILED, persist the
exception text. -/
def applyGameExcept (j : GameJob) (msg : String) : GameJob :=
  let j2 := if j.failedAtStatus.isNone then { j with failedAtStatus := some j.status } else j
  { j2 with status := .failed, errorMessage := msg }

/-- Observable result of `_generate_game_video`. -/
structure GameRunResult where
  job : GameJob
  executed : List String
  outcome : RunOutcome
deriving DecidableEq, Repr

/-- `_build_game_initial_state(job)` (`game_services.py` lines 128-143). -/
def buildGameInitialState (job : GameJob) : GameState :=
  { characterImageUrl := job.characterImageUrl
    gameName := job.gameName
    userPrompt := job.userPrompt
    characterDescription := none
    gameLocationsUsed := []
    scripts := []
    frameUrls := []
    videoUrls := []
    finalVideoUrl := none
    error := none
    statusTag := "pending" }

/-- `_build_game_resume_state(job)` (`game_services.py` lines 273-297):
existing results are reloaded; frame/video urls come from the rows that
own a stored file, in scene order (`gameFrames` is kept scene-ordered by
construction). -/
def buildGameResumeState (job : GameJob) : GameState :=
  { characterImageUrl := job.characterImageUrl
    gameName := job.gameName
    userPrompt := job.userPrompt
    characterDescription := some job.characterDescription
    gameLocationsUsed := job.gameLocationsUsed
    scripts := (job.scriptJson).getD []
    frameUrls := job.gameFrames.filterMap
      (fun f => f.imageFile.map (fun _ => frameFileUrl f.sceneNumber))
    videoUrls := job.gameFrames.filterMap
      (fun f => f.videoFile.map (fun _ => videoFileUrl f.sceneNumber))
    finalVideoUrl := job.finalVideo.map (fun _ => finalFileUrl)
    error := none
    statusTag := "resuming" }

/-- The job as a game run first persists it: a resumed run clears the
error message (`game_services.py` lines 56-58). -/
def gameStartJob (job : GameJob) : Option String → GameJob
  | none => job
  | some _ => { job with errorMessage := "" }

/-- The state a game run starts from (initial or rebuilt). -/
def gameStartState (job : GameJob) : Option String → GameState
  | none => buildGameInitialState job
  | some _ => buildGameResumeState job

/-- The node list a game run executes. -/
def gameRunList : Option String → List String
  | none => GAME_NODE_ORDER
  | some n => GAME_NODE_ORDER.drop (GAME_NODE_ORDER.indexOf n)

/-- `_generate_game_video(job, start_from)` (`game_services.py` lines
37-81): fresh runs take the initial state and the full node order; resumed
runs clear the error message, rebuild the state, and run the order from
`start_from` (callers only pass members of `GAME_NODE_ORDER`, mirroring
`list.index`). -/
def generateGameVideo (nodes : String → GameState → PyResult GameNodeOutput)
    (job : GameJob) (startFrom : Option String) : GameRunResult :=
  let r := gameLoop nodes (gameRunList startFrom) (gameStartJob job startFrom)
    (gameStartState job startFrom)
  match r.outcome with
  | .completed => ⟨markGameCompleted r.job, r.executed, .completed⟩
  | .errorHalt n msg => ⟨applyGameExcept r.job msg, r.executed, .errorHalt n msg⟩
  | .raised n msg => ⟨applyGameExcept r.job msg, r.executed, .raised n msg⟩

/-! ## Artifact ownership (for the resume frame property) -/

/-- The prompt data of the segment rows (owned by the
`prepare_first_frame` stage, which creates the rows). -/
def segPrompts (l : List Segment) : List (String × Nat × String) :=
  l.map (fun s => (s.title, s.seconds, s.prompt))

/-- The prompt data of a job's segment rows. -/
def promptRows (j : Job) : List (String × Nat × String) := segPrompts j.segments

/-- The video artifact of segment row `i` (`none` when the row is absent,
`some none` when it exists but owns no video yet). -/
def segmentVideoAt (j : Job) (i : Nat) : Option (Option Bytes) :=
  (j.segments.get? i).map (fun s => s.videoFile)

/-- The artifact fields owned by the stages strictly before position `k`
of `NODE_ORDER` hold in `new` exactly what they held in `old`:
`plan_script` (position 0) owns the planning JSON blobs,
`prepare_first_frame` (1) owns the first frame and the segment prompt
rows, `generate_scene1` (2) owns segment 0's video and the scene-1 last
frame, `prepare_cta_frame` (3) owns the CTA frame, `generate_scene2` (4)
owns segment 1's video. -/
def preservedBelow (k : Nat) (old new : Job) : Prop :=
  (1 ≤ k → new.scriptJson = old.scriptJson ∧ new.productDetail = old.productDetail ∧
    new.characterDetails = old.characterDetails) ∧
  (2 ≤ k → new.firstFrame = old.firstFrame ∧ promptRows new = promptRows old ∧
    new.segments.length = old.segments.length) ∧
  (3 ≤ k → new.scene1LastFrame = old.scene1LastFrame ∧
    segmentVideoAt new 0 = segmentVideoAt old 0) ∧
  (4 ≤ k → new.ctaLastFrame = old.ctaLastFrame) ∧
  (5 ≤ k → segmentVideoAt new 1 = segmentVideoAt old 1)

/-- `get_resume_entry_point` as a function of the looked-up status. -/
def resumeEntryOf (st : Status) : String :=
  (lookupStatus resumeMapServices st).getD "plan_script"

/-! ## Stage labels of the executors -/

/-- The stage (`job.status` value) that `_save_node_result` assigns for
each drama node name (read off the branches of `saveNodeResult`). -/
def stageOf (nodeName : String) : Option Status :=
  if nodeName = "plan_script" then some .planning
  else if nodeName = "prepare_first_frame" then some .preparing
  else if nodeName = "generate_scene1" then some .generatingS1
  else if nodeName = "prepare_cta_frame" then some .preparingCta
  else if nodeName = "generate_scene2" then some .generatingS2
  else if nodeName = "concatenate_videos" then some .concatenating
  else if nodeName = "handle_error" then some .failed
  else none

/-- The stage that `_update_game_job_status_for_node` assigns for a game
node name (the status component of `GAME_NODE_TO_STATUS`). -/
def gameStageOf (n : String) : Option Status :=
  (GAME_NODE_TO_STATUS.find? (fun p => p.1 == n)).map (fun p => p.2.1)

/-! ## Admin start guard (`admin.py`, `generate_video_action`) -/

/-- `allowed_statuses` (`admin.py` line 668): a start is accepted only
from PENDING or FAILED. -/
def allowedStartStatuses : List Status := [.pending, .failed]

/-- The status check of `generate_video_action` (`admin.py` lines
670-676): a plain read of `job.status` against `allowed_statuses`; there
is no lock or atomic claim around it. -/
def startGuard (observed : Status) : Bool := allowedStartStatuses.contains observed

/-- Shared state of two invocations of `generate_video_action` on the same
job: the persisted status, whether each invocation's guard passed, and
whether each invocation's background run has advanced the job. -/
structure TwoStartState where
  jobStatus : Status
  aPassed : Bool
  bPassed : Bool
  aAdvanced : Bool
  bAdvanced : Bool
deriving DecidableEq, Repr

/-- Atomic events of the two-invocation interleaving: each invocation's
guard (the status read plus check) and the first status write
(`status = PLANNING`) of the background run it launches. -/
inductive StartOp where
  | guardA | guardB | runA | runB
deriving DecidableEq, Repr

/-- One event: a guard marks its invocation as passed when the observed
status is allowed; a run event advances the job (writes PLANNING) only if
its invocation passed the guard. -/
def startStep (s : TwoStartState) : StartOp → TwoStartState
  | .guardA => if startGuard s.jobStatus then { s with aPassed := true } else s
  | .guardB => if startGuard s.jobStatus then { s with bPassed := true } else s
  | .runA => if s.aPassed then { s with jobStatus := .planning, aAdvanced := true } else s
  | .runB => if s.bPassed then { s with jobStatus := .planning, bAdvanced := true } else s

/-- Execute a schedule (an interleaving) of events. -/
def execStartOps (s : TwoStartState) : List StartOp → TwoStartState
  | [] => s
  | op :: rest => execStartOps (startStep s op) rest

/-- Both invocations arrive at a PENDING job. -/
def initialTwoStart : TwoStartState := ⟨.pending, false, false, false, false⟩

/-- Both guards read the status before either background run writes it. -/
def concurrentSchedule : List StartOp := [.guardA, .guardB, .runA, .runB]

/-- The second guard reads only after the first run has written. -/
def sequencedSchedule : List StartOp := [.guardA, .runA, .guardB, .runB]

end DramaShorts

namespace DramaShorts

/-! ## Claims C1 and C5 (moderation retry wrapper) -/

/-- **C1.** For every `generate_fn` that raises a moderation-classified
error (`ModerationError`) on every call, `_generate_with_moderation_retry`
calls `generate_fn` exactly `max_retries + 1` times in total (with
`MAX_MODERATION_RETRIES = 5`, exactly 6 calls) and then returns the skip
signal (`None`); it never loops unboundedly (the call count of any run is
bounded by `MAX_MODERATION_RETRIES + 1`). -/
theorem C1_moderation_retry_bound (genFn : Nat → String → Except FalError Bytes)
    (quick full : String → String) (prompt : String)
    (hmod : ∀ n p, ∃ m, genFn n p = .error (.moderation m)) :
    generateWithModerationRetry genFn quick full prompt = (.ret none, MAX_MODERATION_RETRIES + 1) ∧
    MAX_MODERATION_RETRIES + 1 = 6 ∧
    (∀ (genFn2 : Nat → String → Except FalError Bytes) (quick2 full2 : String → String)
      (prompt2 : String),
      (generateWithModerationRetry genFn2 quick2 full2 prompt2).2 ≤ MAX_MODERATION_RETRIES + 1) := by
  refine ⟨?_, rfl, ?_⟩
  · exact retryGo_all_moderation genFn quick full prompt MAX_MODERATION_RETRIES hmod
      (MAX_MODERATION_RETRIES + 1) 0 prompt (by omega)
  · intro genFn2 quick2 full2 prompt2
    exact retryGo_calls_le genFn2 quick2 full2 prompt2 MAX_MODERATION_RETRIES
      (MAX_MODERATION_RETRIES + 1) 0 prompt2

/-- A generation callable whose every call raises
`ModerationError("flagged by the content moderation system")`. -/
def genAlwaysModerate : Nat → String → Except FalError Bytes :=
  fun _ _ => .error (.moderation "flagged by the content moderation system")

/-- Witness for C1 at a concrete always-moderating callable. -/
theorem C1_moderation_retry_bound_witness :
    generateWithModerationRetry genAlwaysModerate id id "a prompt"
      = (.ret none, MAX_MODERATION_RETRIES + 1) :=
  (C1_moderation_retry_bound genAlwaysModerate id id "a prompt"
    (fun _ _ => ⟨"flagged by the content moderation system", rfl⟩)).1

/-- A provider whose every call raises a plain non-moderation exception. -/
def providerServerError : Nat → String → Except String Bytes :=
  fun _ _ => .error "Internal server error 500"

/-- **C5 counterexample.** For a generation call that raises a
non-moderation error on its first attempt, the wrapper does make exactly
one call, but it does NOT propagate the error to its caller: the source's
generic `except Exception` handler returns `None` (the same skip signal as
moderation exhaustion), so the concrete run returns `.ret none` where the
claim demands a propagated (`.raise`) exception. -/
theorem C5_counterexample :
    generateWithModerationRetry (falCall providerServerError) id id "a prompt"
        = (.ret none, 1) ∧
    propagated (generateWithModerationRetry (falCall providerServerError) id id "a prompt").1
        = false := by
  exact ⟨by decide, by decide⟩

/-- **C5 (amended).** For a generation call whose first attempt raises an
error that `_check_moderation_error` classifies as non-moderation, the
wrapper makes exactly one call to `generate_fn`, performs no retry, and
returns the skip signal (`None`) to its caller — it swallows the error
instead of propagating it. -/
theorem C5_nonmoderation_single_call (provider : Nat → String → Except String Bytes)
    (quick full : String → String) (prompt raw : String)
    (hraw : provider 0 prompt = .error raw) (hclass : isModerationMsg raw = false) :
    generateWithModerationRetry (falCall provider) quick full prompt = (.ret none, 1) := by
  have hcall : falCall provider 0 prompt = .error (.other raw) := by
    simp [falCall, hraw, checkModerationError, hclass]
  exact retryGo_other (falCall provider) quick full prompt MAX_MODERATION_RETRIES
    MAX_MODERATION_RETRIES 0 prompt raw hcall

/-- Witness for the amended C5 at the concrete server-error provider. -/
theorem C5_nonmoderation_single_call_witness :
    generateWithModerationRetry (falCall providerServerError) id id "another prompt"
      = (.ret none, 1) :=
  C5_nonmoderation_single_call providerServerError id id "another prompt"
    "Internal server error 500" rfl (by decide)

/-! ## Claim C6 (resume table totality) -/

/-- **C6.** For each pipeline kind, every non-terminal status value of that
kind has exactly one entry in that kind's resume stage-to-step mapping
(`STATUS_TO_RESUME_NODE` for drama, `GAME_STATUS_TO_RESUME_NODE` for
game). -/
theorem C6_resume_table_totality :
    (dramaNonTerminalStatuses.all (fun st =>
      (STATUS_TO_RESUME_NODE.filter (fun p => decide (p.1 = st))).length == 1)) = true ∧
    (gameNonTerminalStatuses.all (fun st =>
      (GAME_STATUS_TO_RESUME_NODE.filter (fun p => decide (p.1 = st))).length == 1)) = true :=
  ⟨by decide, by decide⟩

/-! ## Claim C9 (concurrent start exclusion) -/

/-- **C9 counterexample.** The start guard is a plain status read with no
exclusive claim: in the interleaving where both `start()` invocations read
the PENDING status before either background run writes it, BOTH proceed
past the guard and BOTH advance the same job's state — refuting "exactly
one proceeds … never do both advance". -/
theorem C9_counterexample :
    (execStartOps initialTwoStart concurrentSchedule).aAdvanced = true ∧
    (execStartOps initialTwoStart concurrentSchedule).bAdvanced = true :=
  ⟨by decide, by decide⟩

/-- **C9 (amended).** The rejection of a second `start()` is only
best-effort: a second invocation is rejected exactly when its status read
observes a value outside `allowed_statuses` (PENDING, FAILED), which
happens when the first run's status write precedes the read; there is no
atomic claim, so when both guards read before either run writes, both
invocations proceed and both advance the job. -/
theorem C9_guard_not_atomic :
    (execStartOps initialTwoStart sequencedSchedule).aAdvanced = true ∧
    (execStartOps initialTwoStart sequencedSchedule).bPassed = false ∧
    (execStartOps initialTwoStart sequencedSchedule).bAdvanced = false ∧
    startGuard .planning = false ∧
    (execStartOps initialTwoStart concurrentSchedule).aAdvanced = true ∧
    (execStartOps initialTwoStart concurrentSchedule).bAdvanced = true := by
  refine ⟨by decide, by decide, by decide, by decide, by decide, by decide⟩

/-! ## Claim C8 (CHARACTER-kind fan-out steps) -/

/-- Inserting one item grows the list by one. -/
theorem insertByScene_length (x : GameItem) (l : List GameItem) :
    (insertByScene x l).length = l.length + 1 := by
  induction l with
  | nil => rfl
  | cons y t ih =>
    simp only [insertByScene]
    by_cases h : y.scene ≤ x.scene <;> simp [h, ih]

/-- Insertion is a permutation of consing. -/
theorem insertByScene_perm (x : GameItem) (l : List GameItem) :
    (insertByScene x l).Perm (x :: l) := by
  induction l with
  | nil => exact List.Perm.refl _
  | cons y t ih =>
    simp only [insertByScene]
    by_cases h : y.scene ≤ x.scene
    · simp only [if_pos h]
      exact ((ih.cons y).trans (List.Perm.swap x y t))
    · simp [h]

/-- The scene re-sort permutes the joined results. -/
theorem sortByScene_perm (l : List GameItem) : (sortByScene l).Perm l := by
  induction l with
  | nil => exact List.Perm.refl _
  | cons x t ih => exact (insertByScene_perm x (sortByScene t)).trans (ih.cons x)

/-- Filtering with an `if … then some (g _) else none` body is mapping over
the filtered list. -/
theorem filterMap_ite {α β : Type} (c : α → Prop) [DecidablePred c] (g : α → β)
    (l : List α) :
    l.filterMap (fun a => if c a then some (g a) else none)
      = (l.filter (fun a => decide (c a))).map g := by
  induction l with
  | nil => rfl
  | cons a t ih =>
    by_cases h : c a <;>
      simp [List.filterMap_cons, List.filter_cons, h, ih]

/-- Concrete five-scene CHARACTER job inputs: scene 3's frame failed, so
only four frame URLs exist. -/
def mkGameScript (n : Nat) : GameScript :=
  ⟨n, "", "", "prompt " ++ toString n, "", "", ""⟩

/-- The planned five scene scripts. -/
def fiveScripts : List GameScript :=
  [mkGameScript 1, mkGameScript 2, mkGameScript 3, mkGameScript 4, mkGameScript 5]

/-- State after frame generation left only four frame URLs. -/
def fourFrameState : GameState :=
  { scripts := fiveScripts, frameUrls := ["u1", "u2", "u3", "u4"] }

/-- An oracle whose every generation call succeeds. -/
def oracleAllOk : String → GameScript → Except String (Bytes × String) :=
  fun _ sc => .ok ([sc.scene], "provider-url-" ++ toString sc.scene)

/-- **C8 counterexample.** The video fan-out step does NOT submit one task
per scene: a script whose `scene - 1` index has no frame URL is skipped
with no result entry at all, so with 5 scripts and 4 frame URLs the step
returns 4 result entries and no entry for scene 5 — refuting "submits one
task per scene … a per-scene result entry for every submitted scene"
read over all scenes. -/
theorem C8_counterexample :
    (generateGameVideosNode oracleAllOk fourFrameState).videoResults.length ≠
      fourFrameState.scripts.length ∧
    ((generateGameVideosNode oracleAllOk fourFrameState).videoResults.all
      (fun it => it.scene != 5)) = true :=
  ⟨by decide, by decide⟩

/-- **C8 (amended).** The frame fan-out step submits one task per scene and
returns exactly one result entry (success or error) per scene; the video
fan-out step submits one task per scene that has a frame URL
(`scene - 1 < len(frame_urls)`) and returns exactly one result entry per
submitted scene; neither step ever returns a whole-step `error` output
(so in particular a step never fails unless every item fails). -/
theorem C8_fanout_per_scene (oracleF oracleV : String → GameScript → Except String (Bytes × String))
    (s : GameState) :
    ((generateGameFramesNode oracleF s).frameResults.length = s.scripts.length ∧
     (generateGameFramesNode oracleF s).error = none ∧
     ((generateGameFramesNode oracleF s).frameResults.map GameItem.scene).Perm
       (s.scripts.map GameScript.scene)) ∧
    ((generateGameVideosNode oracleV s).videoResults.length =
       (s.scripts.filter (fun sc => decide (sc.scene - 1 < s.frameUrls.length))).length ∧
     (generateGameVideosNode oracleV s).error = none ∧
     ((generateGameVideosNode oracleV s).videoResults.map GameItem.scene).Perm
       ((s.scripts.filter (fun sc => decide (sc.scene - 1 < s.frameUrls.length))).map
         GameScript.scene)) := by
  have hscene : ∀ (u : String) (sc : GameScript),
      (match oracleF u sc with
        | .ok bu => GameItem.ok sc.scene bu.1 bu.2
        | .error m => GameItem.err sc.scene m).scene = sc.scene := by
    intro u sc
    cases oracleF u sc with
    | ok bu => rfl
    | error m => rfl
  have hsceneV : ∀ (u : String) (sc : GameScript),
      (match oracleV u sc with
        | .ok bu => GameItem.ok sc.scene bu.1 bu.2
        | .error m => GameItem.err sc.scene m).scene = sc.scene := by
    intro u sc
    cases oracleV u sc with
    | ok bu => rfl
    | error m => rfl
  constructor
  · refine ⟨?_, rfl, ?_⟩
    · simp only [generateGameFramesNode]
      rw [(sortByScene_perm _).length_eq, List.length_map]
    · simp only [generateGameFramesNode]
      refine ((sortByScene_perm _).map GameItem.scene).trans ?_
      rw [List.map_map]
      exact List.Perm.of_eq (List.map_congr_left (fun sc _ => hscene s.characterImageUrl sc))
  · have hfm :
        (s.scripts.filterMap (fun sc =>
          if sc.scene - 1 < s.frameUrls.length then
            some (match oracleV (s.frameUrls.getD (sc.scene - 1) "") sc with
              | .ok bu => GameItem.ok sc.scene bu.1 bu.2
              | .error m => GameItem.err sc.scene m)
          else none))
          = ((s.scripts.filter (fun sc => decide (sc.scene - 1 < s.frameUrls.length))).map
              (fun sc => match oracleV (s.frameUrls.getD (sc.scene - 1) "") sc with
                | .ok bu => GameItem.ok sc.scene bu.1 bu.2
                | .error m => GameItem.err sc.scene m)) :=
      filterMap_ite (fun sc => sc.scene - 1 < s.frameUrls.length) _ s.scripts
    refine ⟨?_, rfl, ?_⟩
    · simp only [generateGameVideosNode]
      rw [(sortByScene_perm _).length_eq, hfm, List.length_map]
    · simp only [generateGameVideosNode]
      refine ((sortByScene_perm _).map GameItem.scene).trans ?_
      rw [hfm, List.map_map]
      exact List.Perm.of_eq (List.map_congr_left (fun sc _ =>
        hsceneV (s.frameUrls.getD (sc.scene - 1) "") sc))

/-! ## Executor lemmas (drama) -/

/-- `_save_node_result` moves the status to the node's stage (and leaves
it alone for unknown node names). -/
theorem saveNodeResult_status (j : Job) (n : String) (o : NodeOutput) :
    (saveNodeResult j n o).status = (stageOf n).getD j.status := by
  simp only [saveNodeResult, stageOf]
  split_ifs <;>
    first
      | rfl
      | (cases o.scene1VideoBytes <;> rfl)
      | (cases o.scene2VideoBytes <;> rfl)

/-- `_save_node_result` never touches `failed_at_status`. -/
theorem saveNodeResult_failedAt (j : Job) (n : String) (o : NodeOutput) :
    (saveNodeResult j n o).failedAtStatus = j.failedAtStatus := by
  simp only [saveNodeResult]
  split_ifs <;>
    first
      | rfl
      | (cases o.scene1VideoBytes <;> rfl)
      | (cases o.scene2VideoBytes <;> rfl)

/-- Every node name in `NODE_ORDER` has a stage label. -/
theorem stageOf_NODE_ORDER : ∀ x ∈ NODE_ORDER, (stageOf x).isSome = true := by decide

/-- The loop invokes a prefix of its node list. -/
theorem dramaLoop_executed_prefix (nodes : String → GState → PyResult NodeOutput) :
    ∀ (l : List String) (job : Job) (s : GState),
      ∃ l2, l = (dramaLoop nodes l job s).executed ++ l2 := by
  intro l
  induction l with
  | nil => intro job s; exact ⟨[], rfl⟩
  | cons a rest ih =>
    intro job s
    cases hna : nodes a s with
    | raise msg => exact ⟨rest, by simp [dramaLoop, hna]⟩
    | ret out =>
      cases hoe : out.error with
      | some msg => exact ⟨rest, by simp [dramaLoop, hna, hoe]⟩
      | none =>
        obtain ⟨l2, hl2⟩ := ih (saveNodeResult job a out) (mergeOutput s out)
        refine ⟨l2, ?_⟩
        simp only [dramaLoop, hna, hoe]
        simpa using congrArg (a :: ·) hl2

/-- When the loop halts because a node returned an `error` output, the job
is FAILED, `failed_at_status` is that node's stage label, `error_message`
is the node's error text, and the halting node is the last one invoked. -/
theorem dramaLoop_errorHalt_spec (nodes : String → GState → PyResult NodeOutput) :
    ∀ (l : List String) (job : Job) (s : GState) (n msg : String),
      (∀ x ∈ l, (stageOf x).isSome = true) →
      (dramaLoop nodes l job s).outcome = .errorHalt n msg →
      (dramaLoop nodes l job s).job.status = .failed ∧
      (dramaLoop nodes l job s).job.errorMessage = msg ∧
      (dramaLoop nodes l job s).job.failedAtStatus = stageOf n ∧
      (∃ pre, (dramaLoop nodes l job s).executed = pre ++ [n]) := by
  intro l
  induction l with
  | nil =>
    intro job s n msg _ h
    simp only [dramaLoop] at h
    exact absurd h (by simp)
  | cons a rest ih =>
    intro job s n msg hst h
    cases hna : nodes a s with
    | raise m =>
      simp only [dramaLoop, hna] at h
      exact absurd h (by simp)
    | ret out =>
      cases hoe : out.error with
      | some m =>
        simp only [dramaLoop, hna, hoe] at h
        obtain ⟨rfl, rfl⟩ := h
        have hsome := hst a (by simp)
        obtain ⟨st, hstEq⟩ := Option.isSome_iff_exists.mp hsome
        refine ⟨by simp only [dramaLoop, hna, hoe], by simp only [dramaLoop, hna, hoe], ?_,
          ⟨[], by simp [dramaLoop, hna, hoe]⟩⟩
        simp only [dramaLoop, hna, hoe, saveNodeResult_status, hstEq, Option.getD_some]
      | none =>
        simp only [dramaLoop, hna, hoe] at h
        have hrec := ih (saveNodeResult job a out) (mergeOutput s out) n msg
          (fun x hx => hst x (by simp [hx])) h
        simp only [dramaLoop, hna, hoe]
        obtain ⟨pre, hpre⟩ := hrec.2.2.2
        exact ⟨hrec.1, hrec.2.1, hrec.2.2.1, ⟨a :: pre, by simp [hpre]⟩⟩

/-- On a run that ends with an unexpected exception (`raised`), the loop
leaves `failed_at_status` exactly as it was: the saves of the earlier,
successful nodes never touch it. -/
theorem dramaLoop_raised_failedAt (nodes : String → GState → PyResult NodeOutput) :
    ∀ (l : List String) (job : Job) (s : GState) (n msg : String),
      (dramaLoop nodes l job s).outcome = .raised n msg →
      (dramaLoop nodes l job s).job.failedAtStatus = job.failedAtStatus := by
  intro l
  induction l with
  | nil =>
    intro job s n msg h
    simp only [dramaLoop] at h
    exact absurd h (by simp)
  | cons a rest ih =>
    intro job s n msg h
    cases hna : nodes a s with
    | raise m => simp only [dramaLoop, hna]
    | ret out =>
      cases hoe : out.error with
      | some m =>
        simp only [dramaLoop, hna, hoe] at h
        exact absurd h (by simp)
      | none =>
        simp only [dramaLoop, hna, hoe] at h
        simp only [dramaLoop, hna, hoe]
        rw [ih (saveNodeResult job a out) (mergeOutput s out) n msg h,
          saveNodeResult_failedAt]

/-- `dramaRunFrom` reports the loop's outcome unchanged. -/
theorem dramaRunFrom_outcome (nodes : String → GState → PyResult NodeOutput)
    (startIdx : Nat) (job : Job) (s : GState) :
    (dramaRunFrom nodes startIdx job s).outcome
      = (dramaLoop nodes (NODE_ORDER.drop startIdx) job s).outcome := by
  cases hout : (dramaLoop nodes (NODE_ORDER.drop startIdx) job s).outcome <;>
    simp [dramaRunFrom, hout]

/-- `dramaRunFrom` reports the loop's executed node list unchanged. -/
theorem dramaRunFrom_executed (nodes : String → GState → PyResult NodeOutput)
    (startIdx : Nat) (job : Job) (s : GState) :
    (dramaRunFrom nodes startIdx job s).executed
      = (dramaLoop nodes (NODE_ORDER.drop startIdx) job s).executed := by
  cases hout : (dramaLoop nodes (NODE_ORDER.drop startIdx) job s).outcome <;>
    simp [dramaRunFrom, hout]

/-- The `except` epilogue keeps an already-recorded failure point. -/
theorem applyExcept_failedAt_some (j : Job) (msg : String) (st : Status)
    (h : j.failedAtStatus = some st) :
    (applyExcept j msg).failedAtStatus = some st := by
  simp [applyExcept, h]

/-- On an `errorHalt`, the full pass's job is the `except` epilogue of the
loop's job. -/
theorem dramaRunFrom_job_errorHalt (nodes : String → GState → PyResult NodeOutput)
    (startIdx : Nat) (job : Job) (s : GState) (n msg : String)
    (hout : (dramaLoop nodes (NODE_ORDER.drop startIdx) job s).outcome = .errorHalt n msg) :
    (dramaRunFrom nodes startIdx job s).job
      = applyExcept (dramaLoop nodes (NODE_ORDER.drop startIdx) job s).job msg := by
  simp [dramaRunFrom, hout]

/-- The halt behaviour of a full `dramaRunFrom` pass whose loop halted on
an `error` output. -/
theorem dramaRunFrom_errorHalt_spec (nodes : String → GState → PyResult NodeOutput)
    (startIdx : Nat) (job : Job) (s : GState) (n msg : String)
    (h : (dramaRunFrom nodes startIdx job s).outcome = .errorHalt n msg) :
    (dramaRunFrom nodes startIdx job s).job.status = .failed ∧
    (dramaRunFrom nodes startIdx job s).job.errorMessage = msg ∧
    (dramaRunFrom nodes startIdx job s).job.failedAtStatus = stageOf n ∧
    (∃ l2, NODE_ORDER.drop startIdx = (dramaRunFrom nodes startIdx job s).executed ++ l2) ∧
    (∃ pre, (dramaRunFrom nodes startIdx job s).executed = pre ++ [n]) := by
  have hloop : (dramaLoop nodes (NODE_ORDER.drop startIdx) job s).outcome
      = .errorHalt n msg := by rw [← dramaRunFrom_outcome]; exact h
  have hspec := dramaLoop_errorHalt_spec nodes (NODE_ORDER.drop startIdx) job s n msg
    (fun x hx => stageOf_NODE_ORDER x (List.drop_subset _ _ hx)) hloop
  have hpre := dramaLoop_executed_prefix nodes (NODE_ORDER.drop startIdx) job s
  have hnmem : n ∈ NODE_ORDER := by
    obtain ⟨pre, hex⟩ := hspec.2.2.2
    obtain ⟨l2, hl2⟩ := hpre
    have : n ∈ NODE_ORDER.drop startIdx := by
      rw [hl2, hex]; simp
    exact List.drop_subset _ _ this
  obtain ⟨st, hstEq⟩ := Option.isSome_iff_exists.mp (stageOf_NODE_ORDER n hnmem)
  have hfa : (dramaLoop nodes (NODE_ORDER.drop startIdx) job s).job.failedAtStatus
      = some st := by rw [hspec.2.2.1, hstEq]
  have hjob := dramaRunFrom_job_errorHalt nodes startIdx job s n msg hloop
  rw [dramaRunFrom_executed, hjob]
  refine ⟨?_, ?_, ?_, hpre, hspec.2.2.2⟩
  · simp [applyExcept]
  · simp [applyExcept]
  · rw [applyExcept_failedAt_some _ _ st hfa, hstEq]

/-! ## Executor lemmas (game) -/

/-- `_update_game_job_status_for_node` moves the status to the node's
stage (or leaves it for unknown names). -/
theorem updateGameJobStatusForNode_status (j : GameJob) (n : String) :
    (updateGameJobStatusForNode j n).status = (gameStageOf n).getD j.status := by
  simp only [updateGameJobStatusForNode, gameStageOf]
  cases GAME_NODE_TO_STATUS.find? (fun p => p.1 == n) <;> rfl

/-- `_update_game_job_status_for_node` never touches `failed_at_status`. -/
theorem updateGameJobStatusForNode_failedAt (j : GameJob) (n : String) :
    (updateGameJobStatusForNode j n).failedAtStatus = j.failedAtStatus := by
  simp only [updateGameJobStatusForNode]
  cases GAME_NODE_TO_STATUS.find? (fun p => p.1 == n) <;> rfl

/-- `_save_and_inject_game_urls` never touches the job's status. -/
theorem saveAndInjectGameUrls_status (j : GameJob) (n : String) (o : GameNodeOutput)
    (s : GameState) : (saveAndInjectGameUrls j n o s).1.status = j.status := by
  simp only [saveAndInjectGameUrls]
  split_ifs <;> first | rfl | (cases o.finalVideoBytesTmp <;> rfl)

/-- `_save_and_inject_game_urls` never touches `failed_at_status`. -/
theorem saveAndInjectGameUrls_failedAt (j : GameJob) (n : String) (o : GameNodeOutput)
    (s : GameState) : (saveAndInjectGameUrls j n o s).1.failedAtStatus = j.failedAtStatus := by
  simp only [saveAndInjectGameUrls]
  split_ifs <;> first | rfl | (cases o.finalVideoBytesTmp <;> rfl)

/-- Every node name in `GAME_NODE_ORDER` has a stage label. -/
theorem gameStageOf_GAME_NODE_ORDER : ∀ x ∈ GAME_NODE_ORDER, (gameStageOf x).isSome = true := by
  decide

/-- The game run list is always drawn from `GAME_NODE_ORDER`. -/
theorem gameRunList_subset (startFrom : Option String) :
    gameRunList startFrom ⊆ GAME_NODE_ORDER := by
  cases startFrom with
  | none => exact fun x hx => hx
  | some n => exact List.drop_subset _ _

/-- The game loop invokes a prefix of its node list. -/
theorem gameLoop_executed_prefix (nodes : String → GameState → PyResult GameNodeOutput) :
    ∀ (l : List String) (job : GameJob) (s : GameState),
      ∃ l2, l = (gameLoop nodes l job s).executed ++ l2 := by
  intro l
  induction l with
  | nil => intro job s; exact ⟨[], rfl⟩
  | cons a rest ih =>
    intro job s
    cases hna : nodes a s with
    | raise msg => exact ⟨rest, by simp [gameLoop, hna]⟩
    | ret out =>
      cases hoe : out.error with
      | some msg => exact ⟨rest, by simp [gameLoop, hna, hoe]⟩
      | none =>
        obtain ⟨l2, hl2⟩ := ih (saveAndInjectGameUrls (updateGameJobStatusForNode job a) a out s).1
          (saveAndInjectGameUrls (updateGameJobStatusForNode job a) a out s).2
        refine ⟨l2, ?_⟩
        simp only [gameLoop, hna, hoe]
        simpa using congrArg (a :: ·) hl2

/-- When the game loop halts on an `error` output, the job is FAILED with
the halting node's stage label recorded as the failure point and the
node's error text persisted; the halting node is the last one invoked. -/
theorem gameLoop_errorHalt_spec (nodes : String → GameState → PyResult GameNodeOutput) :
    ∀ (l : List String) (job : GameJob) (s : GameState) (n msg : String),
      (∀ x ∈ l, (gameStageOf x).isSome = true) →
      (gameLoop nodes l job s).outcome = .errorHalt n msg →
      (gameLoop nodes l job s).job.status = .failed ∧
      (gameLoop nodes l job s).job.errorMessage = msg ∧
      (gameLoop nodes l job s).job.failedAtStatus = gameStageOf n ∧
      (∃ pre, (gameLoop nodes l job s).executed = pre ++ [n]) := by
  intro l
  induction l with
  | nil =>
    intro job s n msg _ h
    simp only [gameLoop] at h
    exact absurd h (by simp)
  | cons a rest ih =>
    intro job s n msg hst h
    cases hna : nodes a s with
    | raise m =>
      simp only [gameLoop, hna] at h
      exact absurd h (by simp)
    | ret out =>
      cases hoe : out.error with
      | some m =>
        simp only [gameLoop, hna, hoe] at h
        obtain ⟨rfl, rfl⟩ := h
        have hsome := hst a (by simp)
        obtain ⟨st, hstEq⟩ := Option.isSome_iff_exists.mp hsome
        refine ⟨by simp only [gameLoop, hna, hoe], by simp only [gameLoop, hna, hoe], ?_,
          ⟨[], by simp [gameLoop, hna, hoe]⟩⟩
        simp only [gameLoop, hna, hoe, saveAndInjectGameUrls_status,
          updateGameJobStatusForNode_status, hstEq, Option.getD_some]
      | none =>
        simp only [gameLoop, hna, hoe] at h
        have hrec := ih (saveAndInjectGameUrls (updateGameJobStatusForNode job a) a out s).1
          (saveAndInjectGameUrls (updateGameJobStatusForNode job a) a out s).2 n msg
          (fun x hx => hst x (by simp [hx])) h
        simp only [gameLoop, hna, hoe]
        obtain ⟨pre, hpre⟩ := hrec.2.2.2
        exact ⟨hrec.1, hrec.2.1, hrec.2.2.1, ⟨a :: pre, by simp [hpre]⟩⟩

/-- `_generate_game_video` reports the loop's outcome unchanged. -/
theorem generateGameVideo_outcome (nodes : String → GameState → PyResult GameNodeOutput)
    (job : GameJob) (startFrom : Option String) :
    (generateGameVideo nodes job startFrom).outcome
      = (gameLoop nodes (gameRunList startFrom) (gameStartJob job startFrom)
          (gameStartState job startFrom)).outcome := by
  cases hout : (gameLoop nodes (gameRunList startFrom) (gameStartJob job startFrom)
      (gameStartState job startFrom)).outcome <;>
    simp [generateGameVideo, hout]

/-- `_generate_game_video` reports the loop's executed node list. -/
theorem generateGameVideo_executed (nodes : String → GameState → PyResult GameNodeOutput)
    (job : GameJob) (startFrom : Option String) :
    (generateGameVideo nodes job startFrom).executed
      = (gameLoop nodes (gameRunList startFrom) (gameStartJob job startFrom)
          (gameStartState job startFrom)).executed := by
  cases hout : (gameLoop nodes (gameRunList startFrom) (gameStartJob job startFrom)
      (gameStartState job startFrom)).outcome <;>
    simp [generateGameVideo, hout]

/-- The game `except` epilogue keeps an already-recorded failure point. -/
theorem applyGameExcept_failedAt_some (j : GameJob) (msg : String) (st : Status)
    (h : j.failedAtStatus = some st) :
    (applyGameExcept j msg).failedAtStatus = some st := by
  simp [applyGameExcept, h]

/-- On an `errorHalt`, `_generate_game_video`'s job is the `except`
epilogue of the loop's job. -/
theorem generateGameVideo_job_errorHalt (nodes : String → GameState → PyResult GameNodeOutput)
    (job : GameJob) (startFrom : Option String) (n msg : String)
    (hout : (gameLoop nodes (gameRunList startFrom) (gameStartJob job startFrom)
        (gameStartState job startFrom)).outcome = .errorHalt n msg) :
    (generateGameVideo nodes job startFrom).job
      = applyGameExcept (gameLoop nodes (gameRunList startFrom) (gameStartJob job startFrom)
          (gameStartState job startFrom)).job msg := by
  simp [generateGameVideo, hout]

/-- The halt behaviour of a full game pass whose loop halted on an `error`
output. -/
theorem generateGameVideo_errorHalt_spec (nodes : String → GameState → PyResult GameNodeOutput)
    (job : GameJob) (startFrom : Option String) (n msg : String)
    (h : (generateGameVideo nodes job startFrom).outcome = .errorHalt n msg) :
    (generateGameVideo nodes job startFrom).job.status = .failed ∧
    (generateGameVideo nodes job startFrom).job.errorMessage = msg ∧
    (generateGameVideo nodes job startFrom).job.failedAtStatus = gameStageOf n ∧
    (∃ l2, gameRunList startFrom = (generateGameVideo nodes job startFrom).executed ++ l2) ∧
    (∃ pre, (generateGameVideo nodes job startFrom).executed = pre ++ [n]) := by
  have hloop : (gameLoop nodes (gameRunList startFrom) (gameStartJob job startFrom)
      (gameStartState job startFrom)).outcome = .errorHalt n msg := by
    rw [← generateGameVideo_outcome]; exact h
  have hspec := gameLoop_errorHalt_spec nodes (gameRunList startFrom)
    (gameStartJob job startFrom) (gameStartState job startFrom) n msg
    (fun x hx => gameStageOf_GAME_NODE_ORDER x (gameRunList_subset startFrom hx)) hloop
  have hpre := gameLoop_executed_prefix nodes (gameRunList startFrom)
    (gameStartJob job startFrom) (gameStartState job startFrom)
  have hnmem : n ∈ GAME_NODE_ORDER := by
    obtain ⟨pre, hex⟩ := hspec.2.2.2
    obtain ⟨l2, hl2⟩ := hpre
    have : n ∈ gameRunList startFrom := by
      rw [hl2, hex]; simp
    exact gameRunList_subset startFrom this
  obtain ⟨st, hstEq⟩ := Option.isSome_iff_exists.mp (gameStageOf_GAME_NODE_ORDER n hnmem)
  have hfa : (gameLoop nodes (gameRunList startFrom) (gameStartJob job startFrom)
      (gameStartState job startFrom)).job.failedAtStatus = some st := by
    rw [hspec.2.2.1, hstEq]
  have hjob := generateGameVideo_job_errorHalt nodes job startFrom n msg hloop
  rw [generateGameVideo_executed, hjob]
  refine ⟨?_, ?_, ?_, hpre, hspec.2.2.2⟩
  · simp [applyGameExcept]
  · simp [applyGameExcept]
  · rw [applyGameExcept_failedAt_some _ _ st hfa, hstEq]

/-! ## Claim C3 (error output halts the run) -/

/-- **C3.** Whenever a step yields an error output while the executor is
running stage i, the executor sets the job's status to FAILED, sets
`failed_at_status` to stage i's label (the stage `_save_node_result` /
`_update_game_job_status_for_node` assigned for the erroring node),
persists the step's error text into `error_message`, and runs no further
steps of that run (the erroring node is the last entry of the executed
prefix).  Stated for the drama executor (`generate_video_sync`) and the
game executor (`_generate_game_video`). -/
theorem C3_error_output_halts :
    (∀ (nodes : String → GState → PyResult NodeOutput) (job : Job) (n msg : String),
      (generateVideoSync nodes job).outcome = .errorHalt n msg →
      (generateVideoSync nodes job).job.status = .failed ∧
      (generateVideoSync nodes job).job.errorMessage = msg ∧
      (generateVideoSync nodes job).job.failedAtStatus = stageOf n ∧
      (∃ l2, NODE_ORDER = (generateVideoSync nodes job).executed ++ l2) ∧
      (∃ pre, (generateVideoSync nodes job).executed = pre ++ [n])) ∧
    (∀ (nodes : String → GameState → PyResult GameNodeOutput) (job : GameJob)
       (startFrom : Option String) (n msg : String),
      (generateGameVideo nodes job startFrom).outcome = .errorHalt n msg →
      (generateGameVideo nodes job startFrom).job.status = .failed ∧
      (generateGameVideo nodes job startFrom).job.errorMessage = msg ∧
      (generateGameVideo nodes job startFrom).job.failedAtStatus = gameStageOf n ∧
      (∃ l2, gameRunList startFrom = (generateGameVideo nodes job startFrom).executed ++ l2) ∧
      (∃ pre, (generateGameVideo nodes job startFrom).executed = pre ++ [n])) := by
  constructor
  · intro nodes job n msg h
    exact dramaRunFrom_errorHalt_spec nodes 0
      { job with status := .planning, currentStep := "AI 스크립트 기획" } initialGState n msg h
  · intro nodes job startFrom n msg h
    exact generateGameVideo_errorHalt_spec nodes job startFrom n msg h

/-- Drama nodes where `prepare_first_frame` yields an error output. -/
def c3DramaNodes : String → GState → PyResult NodeOutput :=
  fun n _ =>
    if n = "prepare_first_frame" then
      .ret { error := some "image generation failed", statusTag := "first_frame_preparation_failed" }
    else .ret { statusTag := "node_complete" }

/-- A fresh drama job. -/
def freshJob : Job :=
  { status := .pending, failedAtStatus := none, currentStep := "", errorMessage := ""
    scriptJson := none, productDetail := none, characterDetails := none
    firstFrame := none, scene1LastFrame := none, ctaLastFrame := none, finalVideo := none
    segments := [], skippedSegments := [] }

/-- Game nodes where `generate_game_videos` yields an error output. -/
def c3GameNodes : String → GameState → PyResult GameNodeOutput :=
  fun n _ =>
    if n = "generate_game_videos" then
      .ret { error := some "all videos failed", statusTag := "video_generation_failed" }
    else .ret { statusTag := "node_complete" }

/-- A fresh game job. -/
def freshGameJob : GameJob :=
  { status := .pending, failedAtStatus := none, currentStep := "", errorMessage := ""
    characterImageUrl := "char.png", gameName := "PUBG", userPrompt := ""
    characterDescription := "", gameLocationsUsed := [], scriptJson := none
    gameFrames := [], finalVideo := none }

/-- Witness for C3 at concrete erroring runs of both executors. -/
theorem C3_error_output_halts_witness :
    ((generateVideoSync c3DramaNodes freshJob).job.status = .failed ∧
     (generateVideoSync c3DramaNodes freshJob).job.errorMessage = "image generation failed" ∧
     (generateVideoSync c3DramaNodes freshJob).job.failedAtStatus
        = stageOf "prepare_first_frame" ∧
     (∃ l2, NODE_ORDER = (generateVideoSync c3DramaNodes freshJob).executed ++ l2) ∧
     (∃ pre, (generateVideoSync c3DramaNodes freshJob).executed
        = pre ++ ["prepare_first_frame"])) ∧
    ((generateGameVideo c3GameNodes freshGameJob none).job.status = .failed ∧
     (generateGameVideo c3GameNodes freshGameJob none).job.errorMessage = "all videos failed" ∧
     (generateGameVideo c3GameNodes freshGameJob none).job.failedAtStatus
        = gameStageOf "generate_game_videos" ∧
     (∃ l2, gameRunList none = (generateGameVideo c3GameNodes freshGameJob none).executed ++ l2) ∧
     (∃ pre, (generateGameVideo c3GameNodes freshGameJob none).executed
        = pre ++ ["generate_game_videos"])) :=
  ⟨C3_error_output_halts.1 c3DramaNodes freshJob "prepare_first_frame"
      "image generation failed" (by decide),
   C3_error_output_halts.2 c3GameNodes freshGameJob none "generate_game_videos"
      "all videos failed" (by decide)⟩

/-! ## Claim C10 (runs always end COMPLETED or FAILED) -/

/-- Any full drama pass ends with the job COMPLETED or FAILED. -/
theorem dramaRunFrom_terminal (nodes : String → GState → PyResult NodeOutput)
    (startIdx : Nat) (job : Job) (s : GState) :
    (dramaRunFrom nodes startIdx job s).job.status = .completed ∨
    (dramaRunFrom nodes startIdx job s).job.status = .failed := by
  cases hout : (dramaLoop nodes (NODE_ORDER.drop startIdx) job s).outcome with
  | completed => left; simp [dramaRunFrom, hout, markCompleted]
  | errorHalt n m => right; simp [dramaRunFrom, hout, applyExcept]
  | raised n m => right; simp [dramaRunFrom, hout, applyExcept]

/-- Any full game pass ends with the job COMPLETED or FAILED. -/
theorem generateGameVideo_terminal (nodes : String → GameState → PyResult GameNodeOutput)
    (job : GameJob) (startFrom : Option String) :
    (generateGameVideo nodes job startFrom).job.status = .completed ∨
    (generateGameVideo nodes job startFrom).job.status = .failed := by
  cases hout : (gameLoop nodes (gameRunList startFrom) (gameStartJob job startFrom)
      (gameStartState job startFrom)).outcome with
  | completed => left; simp [generateGameVideo, hout, markGameCompleted]
  | errorHalt n m => right; simp [generateGameVideo, hout, applyGameExcept]
  | raised n m => right; simp [generateGameVideo, hout, applyGameExcept]

/-- **C10.** Every invocation of a pipeline-run entry point
(`generate_video_sync`, `generate_video_with_resume`, or
`_generate_game_video`), whether it returns normally or raises, leaves the
job's persisted status equal to either COMPLETED or FAILED — a run never
exits leaving the job frozen in PENDING or any intermediate stage. -/
theorem C10_terminal_status :
    (∀ (nodes : String → GState → PyResult NodeOutput) (job : Job),
      (generateVideoSync nodes job).job.status = .completed ∨
      (generateVideoSync nodes job).job.status = .failed) ∧
    (∀ (nodes : String → GState → PyResult NodeOutput) (job : Job),
      (generateVideoWithResume nodes job).job.status = .completed ∨
      (generateVideoWithResume nodes job).job.status = .failed) ∧
    (∀ (nodes : String → GameState → PyResult GameNodeOutput) (job : GameJob)
       (startFrom : Option String),
      (generateGameVideo nodes job startFrom).job.status = .completed ∨
      (generateGameVideo nodes job startFrom).job.status = .failed) := by
  refine ⟨?_, ?_, ?_⟩
  · intro nodes job
    exact dramaRunFrom_terminal nodes 0
      { job with status := .planning, currentStep := "AI 스크립트 기획" } initialGState
  · intro nodes job
    simp only [generateVideoWithResume]
    by_cases h : getResumeEntryPoint job = "plan_script"
    · rw [if_pos h]
      exact dramaRunFrom_terminal nodes 0
        { job with status := .planning, currentStep := "AI 스크립트 기획" } initialGState
    · rw [if_neg h]
      exact dramaRunFrom_terminal nodes (nodeIdx (getResumeEntryPoint job))
        { job with errorMessage := "" } (buildResumeState job)
  · intro nodes job startFrom
    exact generateGameVideo_terminal nodes job startFrom

/-! ## Claim C7 (failure point of a failing resumed run) -/

/-- On a `raised` outcome the full pass keeps an already-recorded failure
point of the input job. -/
theorem dramaRunFrom_raised_keeps_failedAt (nodes : String → GState → PyResult NodeOutput)
    (startIdx : Nat) (job : Job) (s : GState) (k : Status) (n msg : String)
    (hk : job.failedAtStatus = some k)
    (h : (dramaRunFrom nodes startIdx job s).outcome = .raised n msg) :
    (dramaRunFrom nodes startIdx job s).job.failedAtStatus = some k := by
  have hloop : (dramaLoop nodes (NODE_ORDER.drop startIdx) job s).outcome
      = .raised n msg := by rw [← dramaRunFrom_outcome]; exact h
  have hfa := dramaLoop_raised_failedAt nodes (NODE_ORDER.drop startIdx) job s n msg hloop
  have hjob : (dramaRunFrom nodes startIdx job s).job
      = applyExcept (dramaLoop nodes (NODE_ORDER.drop startIdx) job s).job msg := by
    simp [dramaRunFrom, hloop]
  rw [hjob]
  exact applyExcept_failedAt_some _ _ k (by rw [hfa, hk])

/-- **C7 (amended).** A resumed run that fails again via a step's ERROR
OUTPUT overwrites `failed_at_status` with the stage label of the failing
step; but a resumed run that fails via an UNEXPECTED EXCEPTION leaves the
previously recorded `failed_at_status` unchanged (the `except` epilogue
only sets it when it is empty), so on that path the old failure point — not
the stage at which the resumed run failed — is what remains recorded. -/
theorem C7_failure_point_update :
    (∀ (nodes : String → GState → PyResult NodeOutput) (job : Job) (n msg : String),
      (generateVideoWithResume nodes job).outcome = .errorHalt n msg →
      (generateVideoWithResume nodes job).job.failedAtStatus = stageOf n) ∧
    (∀ (nodes : String → GState → PyResult NodeOutput) (job : Job) (k : Status) (n msg : String),
      job.failedAtStatus = some k →
      (generateVideoWithResume nodes job).outcome = .raised n msg →
      (generateVideoWithResume nodes job).job.failedAtStatus = some k) := by
  constructor
  · intro nodes job n msg h
    simp only [generateVideoWithResume] at h ⊢
    by_cases he : getResumeEntryPoint job = "plan_script"
    · rw [if_pos he] at h ⊢
      exact (dramaRunFrom_errorHalt_spec nodes 0 _ initialGState n msg h).2.2.1
    · rw [if_neg he] at h ⊢
      exact (dramaRunFrom_errorHalt_spec nodes (nodeIdx (getResumeEntryPoint job))
        { job with errorMessage := "" } (buildResumeState job) n msg h).2.2.1
  · intro nodes job k n msg hk h
    simp only [generateVideoWithResume] at h ⊢
    by_cases he : getResumeEntryPoint job = "plan_script"
    · rw [if_pos he] at h ⊢
      exact dramaRunFrom_raised_keeps_failedAt nodes 0 _ initialGState k n msg hk h
    · rw [if_neg he] at h ⊢
      exact dramaRunFrom_raised_keeps_failedAt nodes (nodeIdx (getResumeEntryPoint job))
        { job with errorMessage := "" } (buildResumeState job) k n msg hk h

/-- Nodes for a resumed run that raises an unexpected exception in
`generate_scene2`. -/
def c7Nodes : String → GState → PyResult NodeOutput :=
  fun n _ =>
    if n = "generate_scene2" then .raise "kaboom"
    else .ret { statusTag := "node_complete" }

/-- A job that had failed at the CTA-frame stage. -/
def c7Job : Job :=
  { status := .failed, failedAtStatus := some .preparingCta, currentStep := ""
    errorMessage := "old failure", scriptJson := some [1], productDetail := none
    characterDetails := none, firstFrame := some [2], scene1LastFrame := some [3]
    ctaLastFrame := none, finalVideo := none, segments := [], skippedSegments := [] }

/-- **C7 counterexample.** A resumed run (entry `prepare_cta_frame`) whose
`generate_scene2` step raises an unexpected exception ends with
`failed_at_status` still equal to the OLD failure point (PREPARING_CTA),
not the stage at which the resumed run failed (GENERATING_S2) — the claim's
"(whether via a step's error output or via an unexpected exception)" is
false on the exception path. -/
theorem C7_counterexample :
    (generateVideoWithResume c7Nodes c7Job).outcome = .raised "generate_scene2" "kaboom" ∧
    stageOf "generate_scene2" = some .generatingS2 ∧
    (generateVideoWithResume c7Nodes c7Job).job.failedAtStatus = some .preparingCta ∧
    (generateVideoWithResume c7Nodes c7Job).job.failedAtStatus ≠ some .generatingS2 :=
  ⟨by decide, by decide, by decide, by decide⟩

/-- Nodes for a resumed run whose `generate_scene2` step yields an error
output. -/
def c7ErrNodes : String → GState → PyResult NodeOutput :=
  fun n _ =>
    if n = "generate_scene2" then
      .ret { error := some "scene2 exploded", statusTag := "scene2_failed" }
    else .ret { statusTag := "node_complete" }

/-- A job that had failed at the Scene 2 stage. -/
def c7ErrJob : Job :=
  { c7Job with failedAtStatus := some .generatingS2 }

/-- Witness for the amended C7: the error-output path overwrites the
failure point, the exception path keeps the old one. -/
theorem C7_failure_point_update_witness :
    (generateVideoWithResume c7ErrNodes c7ErrJob).job.failedAtStatus
        = stageOf "generate_scene2" ∧
    (generateVideoWithResume c7Nodes c7Job).job.failedAtStatus = some .preparingCta :=
  ⟨C7_failure_point_update.1 c7ErrNodes c7ErrJob "generate_scene2" "scene2 exploded" (by decide),
   C7_failure_point_update.2 c7Nodes c7Job .preparingCta "generate_scene2" "kaboom" rfl
     (by decide)⟩

/-! ## Claim C4 (resume never re-runs or overwrites earlier stages) -/

/-- `updateSegmentVideo` keeps the list length. -/
theorem updateSegmentVideo_length (l : List Segment) (i : Nat) (v : Bytes) :
    (updateSegmentVideo l i v).length = l.length := by
  induction l generalizing i with
  | nil => rfl
  | cons s rest ih =>
    cases i with
    | zero => rfl
    | succ m => simp [updateSegmentVideo, ih]

/-- `updateSegmentVideo` keeps every row's prompt data. -/
theorem updateSegmentVideo_segPrompts (l : List Segment) (i : Nat) (v : Bytes) :
    segPrompts (updateSegmentVideo l i v) = segPrompts l := by
  induction l generalizing i with
  | nil => rfl
  | cons s rest ih =>
    cases i with
    | zero => rfl
    | succ m => simp [updateSegmentVideo, segPrompts] at ih ⊢; exact ih m

/-- `updateSegmentVideo` keeps the video of every other row. -/
theorem updateSegmentVideo_get_ne (l : List Segment) (i m : Nat) (v : Bytes) (h : i ≠ m) :
    ((updateSegmentVideo l m v).get? i).map (fun s => s.videoFile)
      = (l.get? i).map (fun s => s.videoFile) := by
  induction l generalizing i m with
  | nil => rfl
  | cons s rest ih =>
    cases m with
    | zero =>
      cases i with
      | zero => exact absurd rfl h
      | succ i2 => rfl
    | succ m2 =>
      cases i with
      | zero => rfl
      | succ i2 => simp only [updateSegmentVideo, List.get?]; exact ih i2 m2 (by omega)

/-- Package the ten artifact-field equalities into `preservedBelow`. -/
theorem preservedBelow_of_eqs (k : Nat) (a b : Job)
    (h1 : b.scriptJson = a.scriptJson) (h2 : b.productDetail = a.productDetail)
    (h3 : b.characterDetails = a.characterDetails) (h4 : b.firstFrame = a.firstFrame)
    (h5 : promptRows b = promptRows a) (h6 : b.segments.length = a.segments.length)
    (h7 : b.scene1LastFrame = a.scene1LastFrame)
    (h8 : segmentVideoAt b 0 = segmentVideoAt a 0)
    (h9 : b.ctaLastFrame = a.ctaLastFrame)
    (h10 : segmentVideoAt b 1 = segmentVideoAt a 1) :
    preservedBelow k a b :=
  ⟨fun _ => ⟨h1, h2, h3⟩, fun _ => ⟨h4, h5, h6⟩, fun _ => ⟨h7, h8⟩, fun _ => h9, fun _ => h10⟩

/-- `preservedBelow` is reflexive. -/
theorem preservedBelow_refl (k : Nat) (a : Job) : preservedBelow k a a :=
  preservedBelow_of_eqs k a a rfl rfl rfl rfl rfl rfl rfl rfl rfl rfl

/-- `preservedBelow` is transitive. -/
theorem preservedBelow_trans {k : Nat} {a b c : Job}
    (hab : preservedBelow k a b) (hbc : preservedBelow k b c) : preservedBelow k a c := by
  refine ⟨fun h => ?_, fun h => ?_, fun h => ?_, fun h => ?_, fun h => ?_⟩
  · obtain ⟨x1, x2, x3⟩ := hab.1 h
    obtain ⟨y1, y2, y3⟩ := hbc.1 h
    exact ⟨y1.trans x1, y2.trans x2, y3.trans x3⟩
  · obtain ⟨x1, x2, x3⟩ := hab.2.1 h
    obtain ⟨y1, y2, y3⟩ := hbc.2.1 h
    exact ⟨y1.trans x1, y2.trans x2, y3.trans x3⟩
  · obtain ⟨x1, x2⟩ := hab.2.2.1 h
    obtain ⟨y1, y2⟩ := hbc.2.2.1 h
    exact ⟨y1.trans x1, y2.trans x2⟩
  · exact (hbc.2.2.2.1 h).trans (hab.2.2.2.1 h)
  · exact (hbc.2.2.2.2 h).trans (hab.2.2.2.2 h)

/-- Any save branch other than `plan_script` leaves the planning blobs
untouched. -/
theorem saveNodeResult_plan_fields (j : Job) (o : NodeOutput) (n : String)
    (hn : n ≠ "plan_script") :
    (saveNodeResult j n o).scriptJson = j.scriptJson ∧
    (saveNodeResult j n o).productDetail = j.productDetail ∧
    (saveNodeResult j n o).characterDetails = j.characterDetails := by
  simp only [saveNodeResult]
  split_ifs <;>
    first
      | exact absurd ‹n = "plan_script"› hn
      | exact ⟨rfl, rfl, rfl⟩
      | (cases o.scene1VideoBytes <;> exact ⟨rfl, rfl, rfl⟩)
      | (cases o.scene2VideoBytes <;> exact ⟨rfl, rfl, rfl⟩)

/-- Any save branch other than `prepare_first_frame` leaves the first
frame and the segment prompt rows untouched. -/
theorem saveNodeResult_prepare_fields (j : Job) (o : NodeOutput) (n : String)
    (hn : n ≠ "prepare_first_frame") :
    (saveNodeResult j n o).firstFrame = j.firstFrame ∧
    promptRows (saveNodeResult j n o) = promptRows j ∧
    (saveNodeResult j n o).segments.length = j.segments.length := by
  simp only [saveNodeResult]
  split_ifs <;>
    first
      | exact absurd ‹n = "prepare_first_frame"› hn
      | exact ⟨rfl, rfl, rfl⟩
      | (cases o.scene1VideoBytes with
          | none => exact ⟨rfl, rfl, rfl⟩
          | some v =>
            exact ⟨rfl,
              by simpa [promptRows] using updateSegmentVideo_segPrompts j.segments 0 v,
              by simpa using updateSegmentVideo_length j.segments 0 v⟩)
      | (cases o.scene2VideoBytes with
          | none => exact ⟨rfl, rfl, rfl⟩
          | some v =>
            exact ⟨rfl,
              by simpa [promptRows] using updateSegmentVideo_segPrompts j.segments 1 v,
              by simpa using updateSegmentVideo_length j.segments 1 v⟩)

/-- Any save branch other than `prepare_first_frame` / `generate_scene1`
leaves segment 0's video and the scene-1 last frame untouched. -/
theorem saveNodeResult_scene1_fields (j : Job) (o : NodeOutput) (n : String)
    (hn1 : n ≠ "prepare_first_frame") (hn2 : n ≠ "generate_scene1") :
    (saveNodeResult j n o).scene1LastFrame = j.scene1LastFrame ∧
    segmentVideoAt (saveNodeResult j n o) 0 = segmentVideoAt j 0 := by
  simp only [saveNodeResult]
  split_ifs <;>
    first
      | exact absurd ‹n = "prepare_first_frame"› hn1
      | exact absurd ‹n = "generate_scene1"› hn2
      | exact ⟨rfl, rfl⟩
      | (cases o.scene2VideoBytes with
          | none => exact ⟨rfl, rfl⟩
          | some v =>
            exact ⟨rfl, by
              simpa [segmentVideoAt] using
                updateSegmentVideo_get_ne j.segments 0 1 v (by omega)⟩)

/-- Any save branch other than `prepare_cta_frame` leaves the CTA frame
untouched. -/
theorem saveNodeResult_cta_field (j : Job) (o : NodeOutput) (n : String)
    (hn : n ≠ "prepare_cta_frame") :
    (saveNodeResult j n o).ctaLastFrame = j.ctaLastFrame := by
  simp only [saveNodeResult]
  split_ifs <;>
    first
      | exact absurd ‹n = "prepare_cta_frame"› hn
      | rfl
      | (cases o.scene1VideoBytes <;> rfl)
      | (cases o.scene2VideoBytes <;> rfl)

/-- Any save branch other than `prepare_first_frame` / `generate_scene2`
leaves segment 1's video untouched. -/
theorem saveNodeResult_scene2_field (j : Job) (o : NodeOutput) (n : String)
    (hn1 : n ≠ "prepare_first_frame") (hn2 : n ≠ "generate_scene2") :
    segmentVideoAt (saveNodeResult j n o) 1 = segmentVideoAt j 1 := by
  simp only [saveNodeResult]
  split_ifs <;>
    first
      | exact absurd ‹n = "prepare_first_frame"› hn1
      | exact absurd ‹n = "generate_scene2"› hn2
      | rfl
      | (cases o.scene1VideoBytes with
          | none => rfl
          | some v =>
            simpa [segmentVideoAt] using
              updateSegmentVideo_get_ne j.segments 1 0 v (by omega))

/-- A save of a node at position ≥ k never touches an artifact field owned
by a stage before position k. -/
theorem saveNodeResult_preservedBelow (j : Job) (o : NodeOutput) (n : String) (k : Nat)
    (hk : k ≤ nodeIdx n) : preservedBelow k j (saveNodeResult j n o) := by
  have hplan : nodeIdx "plan_script" = 0 := by decide
  have hprep : nodeIdx "prepare_first_frame" = 1 := by decide
  have hs1 : nodeIdx "generate_scene1" = 2 := by decide
  have hcta : nodeIdx "prepare_cta_frame" = 3 := by decide
  have hs2 : nodeIdx "generate_scene2" = 4 := by decide
  refine ⟨fun h => ?_, fun h => ?_, fun h => ?_, fun h => ?_, fun h => ?_⟩
  · exact saveNodeResult_plan_fields j o n (fun e => by rw [e, hplan] at hk; omega)
  · exact saveNodeResult_prepare_fields j o n (fun e => by rw [e, hprep] at hk; omega)
  · exact saveNodeResult_scene1_fields j o n (fun e => by rw [e, hprep] at hk; omega)
      (fun e => by rw [e, hs1] at hk; omega)
  · exact saveNodeResult_cta_field j o n (fun e => by rw [e, hcta] at hk; omega)
  · exact saveNodeResult_scene2_field j o n (fun e => by rw [e, hprep] at hk; omega)
      (fun e => by rw [e, hs2] at hk; omega)

/-- The loop only writes artifact fields owned by the nodes it runs. -/
theorem dramaLoop_preservedBelow (nodes : String → GState → PyResult NodeOutput) (k : Nat) :
    ∀ (l : List String) (job : Job) (s : GState),
      (∀ x ∈ l, k ≤ nodeIdx x) →
      preservedBelow k job (dramaLoop nodes l job s).job := by
  intro l
  induction l with
  | nil => intro job s _; exact preservedBelow_refl k job
  | cons a rest ih =>
    intro job s hl
    cases hna : nodes a s with
    | raise m =>
      simp only [dramaLoop, hna]
      exact preservedBelow_refl k job
    | ret out =>
      have hsave := saveNodeResult_preservedBelow job out a k (hl a (by simp))
      cases hoe : out.error with
      | some m =>
        simp only [dramaLoop, hna, hoe]
        exact preservedBelow_trans hsave
          (preservedBelow_of_eqs k _ _ rfl rfl rfl rfl rfl rfl rfl rfl rfl rfl)
      | none =>
        simp only [dramaLoop, hna, hoe]
        exact preservedBelow_trans hsave
          (ih (saveNodeResult job a out) (mergeOutput s out) (fun x hx => hl x (by simp [hx])))

/-- The success epilogue touches no artifact field. -/
theorem markCompleted_preserved (k : Nat) (j : Job) : preservedBelow k j (markCompleted j) :=
  preservedBelow_of_eqs k _ _ rfl rfl rfl rfl rfl rfl rfl rfl rfl rfl

/-- The `except` epilogue touches no artifact field. -/
theorem applyExcept_preserved (k : Nat) (j : Job) (msg : String) :
    preservedBelow k j (applyExcept j msg) := by
  by_cases h : j.failedAtStatus.isNone
  · simp only [applyExcept, if_pos h]
    exact preservedBelow_of_eqs k _ _ rfl rfl rfl rfl rfl rfl rfl rfl rfl rfl
  · simp only [applyExcept, if_neg h]
    exact preservedBelow_of_eqs k _ _ rfl rfl rfl rfl rfl rfl rfl rfl rfl rfl

/-- A full pass from position `startIdx` preserves every artifact field
owned by earlier stages. -/
theorem dramaRunFrom_preservedBelow (nodes : String → GState → PyResult NodeOutput)
    (k startIdx : Nat) (job : Job) (s : GState)
    (hl : ∀ x ∈ NODE_ORDER.drop startIdx, k ≤ nodeIdx x) :
    preservedBelow k job (dramaRunFrom nodes startIdx job s).job := by
  have hloop := dramaLoop_preservedBelow nodes k (NODE_ORDER.drop startIdx) job s hl
  cases hout : (dramaLoop nodes (NODE_ORDER.drop startIdx) job s).outcome with
  | completed =>
    have hj : (dramaRunFrom nodes startIdx job s).job
        = markCompleted (dramaLoop nodes (NODE_ORDER.drop startIdx) job s).job := by
      simp [dramaRunFrom, hout]
    rw [hj]
    exact preservedBelow_trans hloop (markCompleted_preserved k _)
  | errorHalt n m =>
    have hj : (dramaRunFrom nodes startIdx job s).job
        = applyExcept (dramaLoop nodes (NODE_ORDER.drop startIdx) job s).job m := by
      simp [dramaRunFrom, hout]
    rw [hj]
    exact preservedBelow_trans hloop (applyExcept_preserved k _ m)
  | raised n m =>
    have hj : (dramaRunFrom nodes startIdx job s).job
        = applyExcept (dramaLoop nodes (NODE_ORDER.drop startIdx) job s).job m := by
      simp [dramaRunFrom, hout]
    rw [hj]
    exact preservedBelow_trans hloop (applyExcept_preserved k _ m)

/-- For every status, the resume entry is either the first step or a node
from whose position every later node has an index at least as large. -/
theorem resumeEntryOf_drop_bound : ∀ st : Status,
    resumeEntryOf st = "plan_script" ∨
    (∀ x ∈ NODE_ORDER.drop (nodeIdx (resumeEntryOf st)),
      nodeIdx (resumeEntryOf st) ≤ nodeIdx x) := by
  intro st
  cases st <;> decide

/-- **C4.** For every job whose `failed_at_status` maps to a stage k past
the first step, resuming executes only the steps from k onward (every
invoked node has position ≥ k in `NODE_ORDER`, so steps before k are never
re-invoked), and all artifact fields owned by stages earlier than k hold
exactly the bytes they held before the resume — they are never regenerated
or overwritten by the resumed run. -/
theorem C4_resume_frame_effect (nodes : String → GState → PyResult NodeOutput) (job : Job)
    (h : getResumeEntryPoint job ≠ "plan_script") :
    (∀ x ∈ (generateVideoWithResume nodes job).executed,
      nodeIdx (getResumeEntryPoint job) ≤ nodeIdx x) ∧
    preservedBelow (nodeIdx (getResumeEntryPoint job)) job
      (generateVideoWithResume nodes job).job := by
  have hbound : ∀ x ∈ NODE_ORDER.drop (nodeIdx (getResumeEntryPoint job)),
      nodeIdx (getResumeEntryPoint job) ≤ nodeIdx x := by
    rcases resumeEntryOf_drop_bound (job.failedAtStatus.getD job.status) with he | hb
    · exact absurd he h
    · exact hb
  constructor
  · intro x hx
    simp only [generateVideoWithResume, if_neg h] at hx
    rw [dramaRunFrom_executed] at hx
    obtain ⟨l2, hl2⟩ := dramaLoop_executed_prefix nodes
      (NODE_ORDER.drop (nodeIdx (getResumeEntryPoint job)))
      { job with errorMessage := "" } (buildResumeState job)
    exact hbound x (by rw [hl2]; exact List.mem_append_left l2 hx)
  · have hclear : preservedBelow (nodeIdx (getResumeEntryPoint job)) job
        { job with errorMessage := "" } :=
      preservedBelow_of_eqs _ _ _ rfl rfl rfl rfl rfl rfl rfl rfl rfl rfl
    have hrun := dramaRunFrom_preservedBelow nodes (nodeIdx (getResumeEntryPoint job))
      (nodeIdx (getResumeEntryPoint job)) { job with errorMessage := "" }
      (buildResumeState job) hbound
    simp only [generateVideoWithResume, if_neg h]
    exact preservedBelow_trans hclear hrun

/-- Stub nodes that always succeed with an empty output. -/
def c4Nodes : String → GState → PyResult NodeOutput :=
  fun _ _ => .ret { statusTag := "node_complete" }

/-- A job that failed at the Scene 2 stage, with every earlier artifact
populated. -/
def c4Job : Job :=
  { status := .failed, failedAtStatus := some .generatingS2, currentStep := ""
    errorMessage := "scene2 failed", scriptJson := some [10], productDetail := some [11]
    characterDetails := some [12], firstFrame := some [13], scene1LastFrame := some [14]
    ctaLastFrame := some [15], finalVideo := none
    segments := [⟨"S1", 8, "p1", some [20], .completed⟩, ⟨"S2", 8, "p2", none, .pending⟩]
    skippedSegments := [] }

/-- Witness for C4 at a concrete resumable job. -/
theorem C4_resume_frame_effect_witness :
    (∀ x ∈ (generateVideoWithResume c4Nodes c4Job).executed,
      nodeIdx (getResumeEntryPoint c4Job) ≤ nodeIdx x) ∧
    preservedBelow (nodeIdx (getResumeEntryPoint c4Job)) c4Job
      (generateVideoWithResume c4Nodes c4Job).job :=
  C4_resume_frame_effect c4Nodes c4Job (by decide)

/-! ## Claim C2 (moderation exhaustion of a scene) -/

/-- With both frame URLs present and a generator that always raises a
moderation-classified error, `generate_scene2` exhausts the retry wrapper
and returns the fail output: `skipped_segments = [2]` TOGETHER WITH an
`error` key. -/
theorem generateScene2Node_moderation_exhausted
    (genFn : Nat → String → Except FalError Bytes) (quick full : String → String) (s : GState)
    (hmod : ∀ n p, ∃ m, genFn n p = .error (.moderation m))
    (hseg : 2 ≤ s.segments.length)
    (hu1 : s.scene1LastFrameUrl.isSome = true) (hu2 : s.ctaLastFrameUrl.isSome = true) :
    generateScene2Node genFn quick full s = .ret scene2FailOutput := by
  rcases hs : s.segments with _ | ⟨a, rest⟩
  · rw [hs] at hseg; simp at hseg
  · rcases hr : rest with _ | ⟨b, t⟩
    · rw [hs, hr] at hseg; simp at hseg
    · obtain ⟨u1, hu1e⟩ := Option.isSome_iff_exists.mp hu1
      obtain ⟨u2, hu2e⟩ := Option.isSome_iff_exists.mp hu2
      have hw := retryGo_all_moderation genFn quick full b.prompt MAX_MODERATION_RETRIES hmod
        (MAX_MODERATION_RETRIES + 1) 0 b.prompt (by omega)
      rw [hr] at hs
      simp only [generateScene2Node, hs, hu1e, hu2e, generateWithModerationRetry, hw]

/-- `_save_node_result` never touches the job's `skipped_segments` except
in the `concatenate_videos` branch on a truthy output key. -/
theorem applyExcept_skipped (j : Job) (msg : String) :
    (applyExcept j msg).skippedSegments = j.skippedSegments := by
  by_cases h : j.failedAtStatus.isNone <;> simp [applyExcept, h]

/-- **C2 (amended).** When the moderation retry budget of Scene 2's
video-generation call is exhausted, the wrapper returns the skip signal
and the step's output lists segment 2 in `skipped_segments` — but the
output also carries an `error` key.  The graph routing function
`after_scene2` therefore selects `handle_error`, and the executor running
from the GENERATING_S2 stage halts: the run fails at `generate_scene2`,
`concatenate_videos` is never invoked, the job ends FAILED with
`failed_at_status = GENERATING_S2`, and the job's persisted
`skipped_segments` is left unchanged (only the concatenation branch of
`_save_node_result` writes it). -/
theorem C2_moderation_exhaustion_fails_job
    (nodes : String → GState → PyResult NodeOutput)
    (genFn : Nat → String → Except FalError Bytes) (quick full : String → String)
    (job : Job) (s : GState)
    (hslot : nodes "generate_scene2" s = generateScene2Node genFn quick full s)
    (hmod : ∀ n p, ∃ m, genFn n p = .error (.moderation m))
    (hseg : 2 ≤ s.segments.length)
    (hu1 : s.scene1LastFrameUrl.isSome = true) (hu2 : s.ctaLastFrameUrl.isSome = true) :
    (dramaRunFrom nodes 4 job s).outcome
        = .errorHalt "generate_scene2" "Scene 2 generation failed after all retries" ∧
    (dramaRunFrom nodes 4 job s).executed = ["generate_scene2"] ∧
    (dramaRunFrom nodes 4 job s).job.status = .failed ∧
    (dramaRunFrom nodes 4 job s).job.failedAtStatus = some .generatingS2 ∧
    (dramaRunFrom nodes 4 job s).job.skippedSegments = job.skippedSegments ∧
    scene2FailOutput.skippedSegments = some [2] ∧
    afterScene2 (mergeOutput s scene2FailOutput) = "handle_error" := by
  have hcall : nodes "generate_scene2" s = .ret scene2FailOutput :=
    hslot.trans (generateScene2Node_moderation_exhausted genFn quick full s hmod hseg hu1 hu2)
  have hoe : scene2FailOutput.error = some "Scene 2 generation failed after all retries" := rfl
  have hdrop : NODE_ORDER.drop 4 = ["generate_scene2", "concatenate_videos"] := by decide
  have hloop : dramaLoop nodes (NODE_ORDER.drop 4) job s
      = ⟨{ saveNodeResult job "generate_scene2" scene2FailOutput with
            failedAtStatus := some (saveNodeResult job "generate_scene2" scene2FailOutput).status
            status := .failed
            errorMessage := "Scene 2 generation failed after all retries" },
          mergeOutput s scene2FailOutput, ["generate_scene2"],
          .errorHalt "generate_scene2" "Scene 2 generation failed after all retries"⟩ := by
    rw [hdrop]
    simp only [dramaLoop, hcall, hoe]
  have houtcome : (dramaRunFrom nodes 4 job s).outcome
      = .errorHalt "generate_scene2" "Scene 2 generation failed after all retries" := by
    rw [dramaRunFrom_outcome, hloop]
  have hspec := dramaRunFrom_errorHalt_spec nodes 4 job s "generate_scene2"
    "Scene 2 generation failed after all retries" houtcome
  have hstage : stageOf "generate_scene2" = some .generatingS2 := by decide
  have hjob := dramaRunFrom_job_errorHalt nodes 4 job s "generate_scene2"
    "Scene 2 generation failed after all retries" (by rw [hloop])
  refine ⟨houtcome, ?_, hspec.1, ?_, ?_, rfl, ?_⟩
  · rw [dramaRunFrom_executed, hloop]
  · rw [hspec.2.2.1, hstage]
  · rw [hjob, applyExcept_skipped, hloop]
    rfl
  · simp [afterScene2, mergeOutput, mergeOpt, scene2FailOutput]

/-- Nodes whose Scene 2 slot is the real `generate_scene2` wired to an
always-moderating generator. -/
def c2Nodes : String → GState → PyResult NodeOutput :=
  fun n st =>
    if n = "generate_scene2" then generateScene2Node genAlwaysModerate id id st
    else .ret { statusTag := "node_complete" }

/-- A state about to run Scene 2: two planned segments and both frame
URLs present. -/
def c2State : GState :=
  { segments := [⟨"Hook", 8, "scene1 prompt"⟩, ⟨"CTA", 8, "scene2 prompt"⟩]
    scene1LastFrameUrl := some "scene1-last.png"
    ctaLastFrameUrl := some "cta-last.png"
    skippedSegments := []
    statusTag := "resuming" }

/-- A job whose previous run failed at the Scene 2 stage. -/
def c2Job : Job :=
  { freshJob with status := .failed, failedAtStatus := some .generatingS2 }

/-- **C2 counterexample.** A concrete run in which Scene 2's moderation
retry budget is exhausted (the wrapper returns the skip signal after 6
calls on exactly the scene's prompt): the pipeline does NOT continue to
`concatenate_videos` (the only executed node is `generate_scene2`), the
job is left FAILED, and the segment does NOT appear in the job's persisted
`skipped_segments` (it stays empty) — refuting both the "recorded as
SKIPPED (it appears in skipped_segments)" and the "continues on to the
video-concatenation step" parts of the claim. -/
theorem C2_counterexample :
    generateWithModerationRetry genAlwaysModerate id id "scene2 prompt" = (.ret none, 6) ∧
    (dramaRunFrom c2Nodes 4 c2Job c2State).executed = ["generate_scene2"] ∧
    (dramaRunFrom c2Nodes 4 c2Job c2State).job.status = .failed ∧
    (dramaRunFrom c2Nodes 4 c2Job c2State).job.skippedSegments = [] ∧
    nodeIdx "generate_scene2" = 4 ∧
    getResumeEntryPoint c2Job = "generate_scene2" :=
  ⟨by decide, by decide, by decide, by decide, by decide, by decide⟩

/-- Witness for the amended C2 at the concrete always-moderating run. -/
theorem C2_moderation_exhaustion_fails_job_witness :
    (dramaRunFrom c2Nodes 4 c2Job c2State).outcome
        = .errorHalt "generate_scene2" "Scene 2 generation failed after all retries" ∧
    (dramaRunFrom c2Nodes 4 c2Job c2State).executed = ["generate_scene2"] ∧
    (dramaRunFrom c2Nodes 4 c2Job c2State).job.status = .failed ∧
    (dramaRunFrom c2Nodes 4 c2Job c2State).job.failedAtStatus = some .generatingS2 ∧
    (dramaRunFrom c2Nodes 4 c2Job c2State).job.skippedSegments = c2Job.skippedSegments ∧
    scene2FailOutput.skippedSegments = some [2] ∧
    afterScene2 (mergeOutput c2State scene2FailOutput) = "handle_error" :=
  C2_moderation_exhaustion_fails_job c2Nodes genAlwaysModerate id id c2Job c2State rfl
    (fun _ _ => ⟨"flagged by the content moderation system", rfl⟩)
    (by decide) (by decide) (by decide)

end DramaShorts
